import Mathlib

/-!
# Verification of the SVG legend layout engine

Shallow embedding of `src/maq-visuals-chartutils/src/legend/svgLegend.ts`
(the second variant under `src/maq-visuals-legend-chartutils` is an
~85% duplicate; all claim-relevant regions are textually identical, so a
single embedding covers both).

Numbers are modelled as `ℚ` (JavaScript arithmetic on the values that
occur here is exact on the rationals involved; `x | 0` is truncation
toward zero, `Math.ceil` is the integer ceiling).  The external
text-metrics collaborator (`textMeasurementService`) and the marker
catalog width are abstracted as a `TextMeasure` parameter; the
properties the spec attributes to the collaborator are stated as an
explicit `TMContract` hypothesis where a theorem needs them.  DOM
rendering is out of scope (per the spec); the DOM-adjacent svg
width/height attributes written by `updateLayout` and read back by
`calculateTitleLayout` are tracked as explicit state fields.
-/

namespace SvgLegend

/-- Modelled from the spec: `legendInterfaces.ts` is not under `src/`.
The placement enum of the legend; `Top` is the first (numerically zero,
hence falsy) member, so `changeOrientation` defaults falsy arguments to
`Top`, and `None` is the explicit sentinel used when there is no data. -/
inductive LegendPosition where
  | Top | Bottom | Right | Left | None
  | TopCenter | BottomCenter | RightCenter | LeftCenter
deriving Repr, DecidableEq

/-- Modelled from the spec: numeric value of the placement enum member
(`Top` first), used only for JavaScript truthiness of a placement. -/
def LegendPosition.toNat : LegendPosition → Nat
  | .Top => 0 | .Bottom => 1 | .Right => 2 | .Left => 3 | .None => 4
  | .TopCenter => 5 | .BottomCenter => 6 | .RightCenter => 7 | .LeftCenter => 8

/-- JavaScript truthiness of a placement value: falsy iff it is `Top` (= 0). -/
def LegendPosition.truthy (p : LegendPosition) : Bool := p.toNat != 0

/-- Modelled from the spec: the marker-shape enum (`legendInterfaces.ts` is
not under `src/`); only `longDash` is distinguished by the layout math. -/
inductive MarkerShape where
  | circle | square | longDash
deriving Repr, DecidableEq

inductive NavigationArrowType where
  | Increase | Decrease
deriving Repr, DecidableEq

structure Point where
  x : ℚ
  y : ℚ
deriving Repr, DecidableEq

structure Viewport where
  width : ℚ
  height : ℚ
deriving Repr, DecidableEq

/-- A navigation arrow of the layout.  `createArrow` of the external svg
utils is determined by (width, height, angle); we record the angle in
place of the opaque path/transform strings it produces. -/
structure NavigationArrow where
  x : ℚ
  y : ℚ
  angle : ℚ
  dataType : NavigationArrowType
deriving Repr, DecidableEq

structure TitleLayout where
  x : ℚ
  y : ℚ
  text : String
  width : ℚ
  height : ℚ
deriving Repr, DecidableEq

/-- `LegendDataPoint` restricted to the fields the layout engine reads or
writes.  `measure`/`secondaryMeasure` are optional in the interface, hence
`Option String`; positions are unset until a layout pass assigns them. -/
structure LegendDataPoint where
  label : String
  measure : Option String := none
  secondaryMeasure : Option String := none
  markerShape : Option MarkerShape := none
  glyphPosition : Option Point := none
  textPosition : Option Point := none
  tooltip : Option String := none
deriving Repr, DecidableEq

structure LegendData where
  title : Option String := none
  dataPoints : List LegendDataPoint
  fontSize : ℚ := 8
  primaryType : Option String := none
deriving Repr, DecidableEq

structure LegendLayout where
  numberOfItems : ℕ
  title : Option TitleLayout
  navigationArrows : List NavigationArrow
deriving Repr, DecidableEq

/-- Text properties handed to the text-metrics collaborator
(`SVGLegend.getTextProperties`): the title flag selects the semibold
title font family, the text may be an undefined measure string, and the
font size defaults to 8pt when falsy. -/
structure TextProps where
  isTitle : Bool
  text : Option String
  fontSize : ℚ
deriving Repr, DecidableEq

/-- The external collaborators: the text-metrics service
(`measureSvgTextWidth`, `getTailoredTextOrDefault`,
`estimateSvgTextHeight`) and the marker catalog's line-icon width
(`Markers.LegendIconLineTotalWidth`). -/
structure TextMeasure where
  measureWidth : TextProps → ℚ
  tailor : TextProps → ℚ → String
  estimateHeight : TextProps → ℚ
  lineIconWidth : ℚ

/-- The contract the spec assigns to the external text-metrics service:
widths are pixel counts (nonnegative), ellipsis truncation to a
nonnegative pixel budget fits the budget, and a string that already fits
is returned unchanged.  The marker catalog's line-icon width is a pixel
width as well. -/
structure TMContract (tm : TextMeasure) : Prop where
  measure_nonneg : ∀ tp, 0 ≤ tm.measureWidth tp
  lineIcon_nonneg : 0 ≤ tm.lineIconWidth
  tailor_fits : ∀ (tp : TextProps) (w : ℚ), 0 ≤ w →
    tm.measureWidth { tp with text := some (tm.tailor tp w) } ≤ w
  tailor_id : ∀ (tp : TextProps) (w : ℚ),
    tm.measureWidth tp ≤ w → tm.tailor tp w = tp.text.getD ""

/-! ## Numeric constants of `SVGLegend` -/

def DefaultFontSizeInPt : ℚ := 8
def LegendIconRadius : ℚ := 5
def MaxTextLength : ℚ := 60
def MaxTitleLength : ℚ := 80
def TextAndIconPadding : ℚ := 5
def TitlePadding : ℚ := 15
def LegendEdgeMariginWidth : ℚ := 10
def LegendMaxWidthFactor : ℚ := 3 / 10
def TopLegendHeight : ℚ := 24

/-- `PixelConverter.fromPointToPixel`: pt × 96⁄72. -/
def fromPointToPixel (pt : ℚ) : ℚ := pt * (4 / 3)

def DefaultTextMargin : ℚ := fromPointToPixel DefaultFontSizeInPt
def DefaultMaxLegendFactor : ℚ := MaxTitleLength / DefaultTextMargin

def LegendArrowOffset : ℚ := 10
def LegendArrowHeight : ℚ := 15
def LegendArrowWidth : ℚ := 15 / 2

/-- JavaScript `x | 0`: truncation toward zero (the values arising here
are far below 2³¹, so int32 wrapping never occurs). -/
def jsTrunc (q : ℚ) : ℤ := if 0 ≤ q then ⌊q⌋ else ⌈q⌉

/-- `Math.ceil` as a number-valued operation. -/
def jsCeil (q : ℚ) : ℚ := (⌈q⌉ : ℚ)

/-- The pattern `x > c ? x : c` (clamp from below at `c`). -/
def jsMaxWith (c x : ℚ) : ℚ := if x > c then x else c

/-! ## Widget state

The mutable instance fields of the `SVGLegend` class that the layout
engine reads or writes.  `svgWidth`/`svgHeight` model the svg element
attributes written by `updateLayout` (read back by the vertical branch of
`calculateTitleLayout` through `parseFloat(this.svg.style("width"))`). -/

structure LegendState where
  orientation : LegendPosition
  viewport : Viewport
  parentViewport : Viewport
  legendDataStartIndex : ℤ
  arrowPosWindow : ℕ
  data : LegendData
  isScrollable : Bool
  showPrimary : Bool
  lastCalculatedWidth : ℚ
  visibleLegendWidth : ℚ
  visibleLegendHeight : ℚ
  legendFontSizeMarginDifference : ℚ
  legendFontSizeMarginValue : ℚ
  svgWidth : ℚ
  svgHeight : ℚ
deriving Repr, DecidableEq

def isTopOrBottom : LegendPosition → Bool
  | .Top | .Bottom | .BottomCenter | .TopCenter => true
  | _ => false

def isCentered : LegendPosition → Bool
  | .BottomCenter | .LeftCenter | .RightCenter | .TopCenter => true
  | _ => false

def isVisible (s : LegendState) : Bool := s.orientation != .None

/-- `changeOrientation`: a falsy placement (i.e. `Top`, the zero member)
defaults to `Top`; otherwise the given placement is stored. -/
def changeOrientation (s : LegendState) (orientation : LegendPosition) : LegendState :=
  if orientation.truthy then { s with orientation := orientation }
  else { s with orientation := .Top }

def getOrientation (s : LegendState) : LegendPosition := s.orientation

/-- `SVGLegend.getTextProperties` (the font family strings are determined
by the `isTitle` flag and carry no further layout information). -/
def getTextProperties (isTitle : Bool) (text : Option String) (fontSize : ℚ) : TextProps :=
  { isTitle := isTitle, text := text,
    fontSize := if fontSize = 0 then DefaultFontSizeInPt else fontSize }

/-- `getMarkerShapeWidth`: the long-dash marker uses the catalog's
line-icon width, every other (or missing) shape twice the icon radius. -/
def getMarkerShapeWidth (tm : TextMeasure) : Option MarkerShape → ℚ
  | some .longDash => tm.lineIconWidth
  | _ => LegendIconRadius * 2

/-- `normalizePosition`, as a function of the stored start index and the
live data-point count: clamp indices at or above the length down to
`length − 1`, then clamp negative values (including the empty-list case)
up to `0`. -/
def normalizeIdx (startIndex : ℤ) (len : ℕ) : ℤ :=
  let i1 := if startIndex ≥ (len : ℤ) then (len : ℤ) - 1 else startIndex
  if i1 < 0 then 0 else i1

/-- `calculateViewport`: recomputes the legend's own footprint from the
orientation, the data's font size, and (for vertical orientations) the
cached `lastCalculatedWidth`. -/
def calculateViewport (s : LegendState) : LegendState :=
  match s.orientation with
  | .Top | .Bottom | .TopCenter | .BottomCenter =>
    let pixelHeight := fromPointToPixel
      (if s.data.fontSize ≠ 0 then s.data.fontSize else DefaultFontSizeInPt)
    let fontHeightSize := TopLegendHeight + (pixelHeight - DefaultFontSizeInPt)
    { s with viewport := { height := fontHeightSize, width := 0 } }
  | .Right | .Left | .RightCenter | .LeftCenter =>
    let width := if s.lastCalculatedWidth ≠ 0 then s.lastCalculatedWidth
      else s.parentViewport.width * LegendMaxWidthFactor
    { s with viewport := { height := 0, width := width + s.data.fontSize } }
  | .None =>
    { s with viewport := { height := 0, width := 0 } }

/-- `updateLayout`: horizontal legends with a primary measure get extra
footprint height; the svg element's width/height attributes are set from
the footprint, falling back to the parent viewport unless hidden. -/
def updateLayout (s : LegendState) : LegendState :=
  let vp :=
    if isTopOrBottom s.orientation ∧ s.showPrimary then
      { s.viewport with
        height := s.viewport.height + 3 * s.legendFontSizeMarginDifference + 20 }
    else s.viewport
  let svgH := if vp.height ≠ 0 then vp.height
    else if s.orientation = .None then 0 else s.parentViewport.height
  let svgW := if vp.width ≠ 0 then vp.width
    else if s.orientation = .None then 0 else s.parentViewport.width
  { s with viewport := vp, svgWidth := svgW, svgHeight := svgH }

/-- The maximum measure length `calculateTitleLayout` allows the title. -/
def titleMaxMeasureLength (s : LegendState) : ℚ :=
  if isTopOrBottom s.orientation then
    let fontSizeMargin :=
      if s.legendFontSizeMarginValue > DefaultTextMargin then
        TextAndIconPadding + s.legendFontSizeMarginDifference
      else TextAndIconPadding
    let fixedHorizontalIconShift := TextAndIconPadding + LegendIconRadius
    let fixedHorizontalTextShift :=
      LegendIconRadius + fontSizeMargin + fixedHorizontalIconShift
    s.parentViewport.width * LegendMaxWidthFactor - fixedHorizontalTextShift -
      LegendEdgeMariginWidth
  else
    if s.legendFontSizeMarginValue < DefaultTextMargin then MaxTitleLength
    else MaxTitleLength + DefaultMaxLegendFactor * s.legendFontSizeMarginDifference

/-- `calculateTitleLayout`: truncates the title against the per-orientation
maximum length; horizontal titles reserve `TitlePadding` to their right,
vertical titles that fit get re-truncated to the legend's rendered pixel
width (read back from the svg element). -/
def calculateTitleLayout (tm : TextMeasure) (s : LegendState)
    (title : Option String) : Option TitleLayout :=
  let hasTitle := match title with | some t => t != "" | none => false
  if hasTitle then
    let t := title.getD ""
    let isHorizontal := isTopOrBottom s.orientation
    let maxMeasureLength := titleMaxMeasureLength s
    let textProperties := getTextProperties true title s.data.fontSize
    let titleWidth := tm.measureWidth textProperties
    let trunc : String × ℚ :=
      if titleWidth > maxMeasureLength then
        (tm.tailor textProperties maxMeasureLength, maxMeasureLength)
      else (t, titleWidth)
    let final : String × ℚ :=
      if isHorizontal then (trunc.1, trunc.2 + TitlePadding)
      else
        (if trunc.2 < maxMeasureLength then tm.tailor textProperties s.svgWidth
         else trunc.1,
         trunc.2)
    some { x := 0, y := 0, text := final.1, width := final.2,
           height := tm.estimateHeight textProperties }
  else none

/-! ## Navigation arrows -/

/-- `updateNavigationArrowLayout`: drop the leading (Decrease) arrow when
the window starts at 0; store the just-computed window size, but when it
equals the remaining data length (last page) roll the stored size back
and drop the trailing (Increase) arrow. -/
def updateNavigationArrowLayout (s : LegendState)
    (navigationArrows : List NavigationArrow)
    (remainingDataLength visibleDataLength : ℕ) :
    LegendState × List NavigationArrow :=
  let navigationArrows :=
    if s.legendDataStartIndex = 0 then navigationArrows.drop 1 else navigationArrows
  let lastWindow := s.arrowPosWindow
  let s := { s with arrowPosWindow := visibleDataLength }
  if navigationArrows.length > 0 ∧ s.arrowPosWindow = remainingDataLength then
    ({ s with arrowPosWindow := lastWindow }, navigationArrows.dropLast)
  else (s, navigationArrows)

/-- `calculateHorizontalNavigationArrowsLayout`. -/
def calculateHorizontalNavigationArrowsLayout (s : LegendState)
    (title : Option TitleLayout) : List NavigationArrow :=
  let height := LegendArrowHeight
  let width := LegendArrowWidth
  let translateY := s.viewport.height / 2 - height / 2
  let rightShift := match title with | some t => t.x + t.width | none => 0
  [ { x := rightShift, y := translateY, angle := 180, dataType := .Decrease },
    { x := s.parentViewport.width - width, y := translateY, angle := 0,
      dataType := .Increase } ]

/-- `calculateVerticalNavigationArrowsLayout`. -/
def calculateVerticalNavigationArrowsLayout (s : LegendState)
    (title : Option TitleLayout) : List NavigationArrow :=
  let height := LegendArrowHeight
  let width := LegendArrowWidth
  let verticalCenter := s.viewport.height / 2
  let rightShift := verticalCenter + height / 2
  let titleHeight := match title with | some t => t.height | none => 0
  [ { x := rightShift, y := width + titleHeight, angle := 270, dataType := .Decrease },
    { x := rightShift, y := s.parentViewport.height - height, angle := 90,
      dataType := .Increase } ]

/-! ## Horizontal item layout -/

/-- The values `calculateHorizontalLayout` derives once, before its item
loop. -/
structure HorizCtx where
  showPrimary : Bool
  fontSize : ℚ
  fontSizeMargin : ℚ
  fixedTextShift : ℚ
  fixedIconShift : ℚ
  iconTotalItemPadding : ℚ
  maxTextLength : ℚ
  percentTextLength : ℚ
  parentWidth : ℚ
deriving Repr, DecidableEq

/-- The nested ternary of `calculateHorizontalLayout`/`calculateVerticalLayout`
picking the widest of label, primary measure and secondary measure, plus
the fixed 15px indicator allowance. -/
def itemMeasuredWidth (tm : TextMeasure) (showPrimary : Bool) (fontSize : ℚ)
    (dp : LegendDataPoint) : ℚ :=
  let labelwidth := tm.measureWidth (getTextProperties false (some dp.label) fontSize)
  let primaryWidth := if showPrimary then
      tm.measureWidth (getTextProperties false dp.measure fontSize) else 0
  let secondaryWidth := if showPrimary then
      tm.measureWidth (getTextProperties false dp.secondaryMeasure fontSize) else 0
  (if labelwidth > primaryWidth then
     (if labelwidth > secondaryWidth then labelwidth else secondaryWidth)
   else
     (if primaryWidth > secondaryWidth then primaryWidth else secondaryWidth)) + 15

/-- One iteration of the horizontal item loop: assign glyph/text positions
at the current occupied width, truncate the label (and, when shown, the
measures) if the item's measured width reaches the per-item budget, and
report the width the item consumes. -/
def horizProcessDP (tm : TextMeasure) (ctx : HorizCtx) (occupiedWidth : ℚ)
    (dp : LegendDataPoint) : LegendDataPoint × ℚ :=
  let markerShapeWidth := getMarkerShapeWidth tm dp.markerShape
  let dp := { dp with
    glyphPosition := some { x := occupiedWidth + markerShapeWidth / 2,
                            y := ctx.fixedIconShift },
    textPosition := some { x := occupiedWidth + ctx.fixedTextShift,
                           y := ctx.fixedTextShift } }
  let textProperties := getTextProperties false (some dp.label) ctx.fontSize
  let width := itemMeasuredWidth tm ctx.showPrimary ctx.fontSize dp
  if width < ctx.maxTextLength then
    (dp, ctx.iconTotalItemPadding + width)
  else
    let dp := { dp with label := tm.tailor textProperties ctx.maxTextLength }
    let dp :=
      if ctx.showPrimary then
        { dp with
          measure := some (tm.tailor
            (getTextProperties false dp.measure ctx.fontSize) ctx.maxTextLength),
          secondaryMeasure := some (tm.tailor
            (getTextProperties false dp.secondaryMeasure ctx.fontSize)
            ctx.percentTextLength) }
      else dp
    (dp, ctx.iconTotalItemPadding + ctx.maxTextLength)

/-- The horizontal item loop: processes points left to right accumulating
occupied width; the moment it exceeds the parent width the loop breaks,
recording the current index (the remaining points stay untouched).
Returns the (partially) updated points, the final occupied width and the
break index, if any. -/
def horizLoop (tm : TextMeasure) (ctx : HorizCtx) (occupiedWidth : ℚ) (itr : ℕ) :
    List LegendDataPoint → List LegendDataPoint × ℚ × Option ℕ
  | [] => ([], occupiedWidth, none)
  | dp :: rest =>
    let (dp', spaceTakenByItem) := horizProcessDP tm ctx occupiedWidth dp
    let occupiedWidth := occupiedWidth + spaceTakenByItem
    if occupiedWidth > ctx.parentWidth then
      (dp' :: rest, occupiedWidth, some itr)
    else
      let (rest', occFinal, brk) := horizLoop tm ctx occupiedWidth (itr + 1) rest
      (dp' :: rest', occFinal, brk)

/-- The first data point's marker shape (the pattern
`dataPoints && dataPoints[0] && dataPoints[0].markerShape`). -/
def firstMarkerShape : List LegendDataPoint → Option MarkerShape
  | [] => none
  | dp :: _ => dp.markerShape

/-- The font-size-dependent margin used by the horizontal layout pass
(`fontSizeMargin`). -/
def horizMargin (s : LegendState) : ℚ :=
  if s.legendFontSizeMarginDifference > 0 then
    TextAndIconPadding + s.legendFontSizeMarginDifference
  else TextAndIconPadding

/-- The derived context of `calculateHorizontalLayout` for a given window
of points, together with the title updated in place (its `y` is set to
the fixed text shift) and the initial occupied width. -/
def mkHorizCtx (tm : TextMeasure) (s : LegendState)
    (dataPoints : List LegendDataPoint) (title : Option TitleLayout) :
    HorizCtx × Option TitleLayout × ℚ :=
  let HorizontalTextShift : ℚ := 4
  let HorizontalIconShift : ℚ := 11
  let fontSizeBiggerThanDefault := s.legendFontSizeMarginDifference > 0
  let fontSizeMargin := horizMargin s
  let firstDataPointMarkerShape := firstMarkerShape dataPoints
  let fixedTextShift :=
    getMarkerShapeWidth tm firstDataPointMarkerShape / 2 + fontSizeMargin +
      HorizontalTextShift
  let fixedIconShift := HorizontalIconShift +
    (if fontSizeBiggerThanDefault then s.legendFontSizeMarginDifference else 0)
  let iconTotalItemPadding :=
    getMarkerShapeWidth tm firstDataPointMarkerShape + fontSizeMargin * 3
  let titleInit : Option TitleLayout × ℚ :=
    match title with
    | some t => (some { t with y := fixedTextShift }, t.width)
    | none => (none, 0)
  let occupiedWidth :=
    if s.legendDataStartIndex > 0 then titleInit.2 + LegendArrowOffset
    else titleInit.2
  let dataPointsLength := dataPoints.length
  let parentWidth := s.parentViewport.width
  let maxTextLength := jsMaxWith MaxTextLength
    (if dataPointsLength > 0 then
      ((jsTrunc ((parentWidth - occupiedWidth -
        iconTotalItemPadding * dataPointsLength) / dataPointsLength) : ℤ) : ℚ)
     else 0)
  let percentTextLength := jsMaxWith MaxTextLength
    (if dataPointsLength > 0 then
      ((jsTrunc ((parentWidth - occupiedWidth) / dataPointsLength) : ℤ) : ℚ)
     else 0)
  ({ showPrimary := s.showPrimary, fontSize := s.data.fontSize,
     fontSizeMargin := fontSizeMargin, fixedTextShift := fixedTextShift,
     fixedIconShift := fixedIconShift, iconTotalItemPadding := iconTotalItemPadding,
     maxTextLength := maxTextLength, percentTextLength := percentTextLength,
     parentWidth := parentWidth },
   titleInit.1, occupiedWidth)

/-- The value `dataPoints[0]["measure"]` whose `.length` the horizontal
pass reads when the primary column is shown; reading it (or reading
`dataPoints[0]` itself on an empty window) throws when it is undefined. -/
def horizMeasureDeref : List LegendDataPoint → Option String
  | [] => none
  | dp :: _ => dp.measure

/-- The body of `calculateHorizontalLayout` past the unguarded
dereference (always reached when the primary column is hidden or the
measure is defined). -/
def calculateHorizontalLayoutRun (tm : TextMeasure) (s : LegendState)
    (dataPoints : List LegendDataPoint) (title : Option TitleLayout)
    (navigationArrows : List NavigationArrow) :
    ℕ × LegendState × List LegendDataPoint × Option TitleLayout ×
      List NavigationArrow :=
  let mk := mkHorizCtx tm s dataPoints title
  let loop := horizLoop tm mk.1 mk.2.2 0 dataPoints
  let numberOfItems := loop.2.2.getD dataPoints.length
  let upd := updateNavigationArrowLayout { s with visibleLegendWidth := loop.2.1 }
    navigationArrows dataPoints.length numberOfItems
  (numberOfItems, upd.1, loop.1, mk.2.1, upd.2)

/-- `calculateHorizontalLayout`.  When the primary measure column is
shown, the function dereferences `dataPoints[0]["measure"].length` with no
guard: a missing first point or an undefined measure string throws, which
the embedding models as `none`. -/
def calculateHorizontalLayout (tm : TextMeasure) (s : LegendState)
    (dataPoints : List LegendDataPoint) (title : Option TitleLayout)
    (navigationArrows : List NavigationArrow) :
    Option (ℕ × LegendState × List LegendDataPoint × Option TitleLayout ×
            List NavigationArrow) :=
  if s.showPrimary ∧ horizMeasureDeref dataPoints = none then none
  else some (calculateHorizontalLayoutRun tm s dataPoints title navigationArrows)

/-! ## Vertical item layout -/

/-- The values `calculateVerticalLayout` derives once, before its item
loop. -/
structure VertCtx where
  showPrimary : Bool
  fontSize : ℚ
  marginDifference : ℚ
  fontFactor : ℚ
  verticalLegendHeight : ℚ
  extraShiftForTextAlignmentToIcon : ℚ
  fixedHorizontalIconShift : ℚ
  fixedHorizontalTextShift : ℚ
  maxHorizontalSpaceAvaliable : ℚ
  parentHeight : ℚ
deriving Repr, DecidableEq

/-- One iteration of the vertical item loop: assign glyph/text positions
at the running vertical offset, account the extra rows of the measures,
truncate the label (and measures) if the item's measured width exceeds
the available horizontal space, and advance the offset by the row
height.  Returns the updated point, the offset after the item, and the
item's measured width (feeding the max-used-width computation). -/
def vertProcessDP (tm : TextMeasure) (ctx : VertCtx) (totalSpaceOccupiedThusFar : ℚ)
    (dp : LegendDataPoint) : LegendDataPoint × ℚ × ℚ :=
  let textProperties := getTextProperties false (some dp.label) ctx.fontSize
  let dp := { dp with
    glyphPosition := some { x := ctx.fixedHorizontalIconShift,
                            y := totalSpaceOccupiedThusFar + ctx.fontFactor },
    textPosition := some { x := ctx.fixedHorizontalTextShift,
                           y := totalSpaceOccupiedThusFar +
                                ctx.extraShiftForTextAlignmentToIcon } }
  let totalSpaceOccupiedThusFar :=
    if ctx.showPrimary then
      totalSpaceOccupiedThusFar + (20 + ctx.marginDifference / 2) * 2
    else totalSpaceOccupiedThusFar
  let width := itemMeasuredWidth tm ctx.showPrimary ctx.fontSize dp
  let dp :=
    if width > ctx.maxHorizontalSpaceAvaliable then
      let dp := { dp with label := tm.tailor textProperties ctx.maxHorizontalSpaceAvaliable }
      if ctx.showPrimary then
        { dp with
          measure := some (tm.tailor
            (getTextProperties false dp.measure ctx.fontSize)
            (ctx.maxHorizontalSpaceAvaliable - 18)),
          secondaryMeasure := some (tm.tailor
            (getTextProperties false dp.secondaryMeasure ctx.fontSize)
            (ctx.maxHorizontalSpaceAvaliable - 18)) }
      else dp
    else dp
  (dp, totalSpaceOccupiedThusFar + ctx.verticalLegendHeight, width)

/-- The vertical item loop: processes points top to bottom; the moment the
cumulative height exceeds the parent height the loop breaks, recording
the current index.  Returns the updated points, the final offset, the
maximum measured item width, and the break index, if any. -/
def vertLoop (tm : TextMeasure) (ctx : VertCtx) (totalSpaceOccupiedThusFar : ℚ)
    (maxHorizontalSpaceUsed : ℚ) (itr : ℕ) :
    List LegendDataPoint → List LegendDataPoint × ℚ × ℚ × Option ℕ
  | [] => ([], totalSpaceOccupiedThusFar, maxHorizontalSpaceUsed, none)
  | dp :: rest =>
    let (dp', total', width) := vertProcessDP tm ctx totalSpaceOccupiedThusFar dp
    let maxHorizontalSpaceUsed :=
      if width > maxHorizontalSpaceUsed then width else maxHorizontalSpaceUsed
    if total' > ctx.parentHeight then
      (dp' :: rest, total', maxHorizontalSpaceUsed, some itr)
    else
      let (rest', totalF, maxUsedF, brk) :=
        vertLoop tm ctx total' maxHorizontalSpaceUsed (itr + 1) rest
      (dp' :: rest', totalF, maxUsedF, brk)

/-- The derived context of `calculateVerticalLayout`. -/
def mkVertCtx (tm : TextMeasure) (s : LegendState)
    (dataPoints : List LegendDataPoint) (autoWidth : Bool) : VertCtx :=
  let fontSizeBiggerThenDefault := s.legendFontSizeMarginDifference > 0
  let fontFactor := if fontSizeBiggerThenDefault then s.legendFontSizeMarginDifference else 0
  let fixedHorizontalIconShift :=
    TextAndIconPadding + getMarkerShapeWidth tm (firstMarkerShape dataPoints) / 2
  let fixedHorizontalTextShift := fixedHorizontalIconShift * 2
  { showPrimary := s.showPrimary, fontSize := s.data.fontSize,
    marginDifference := s.legendFontSizeMarginDifference,
    fontFactor := fontFactor, verticalLegendHeight := 20 + fontFactor,
    extraShiftForTextAlignmentToIcon := 4 + fontFactor * (13 / 10),
    fixedHorizontalIconShift := fixedHorizontalIconShift,
    fixedHorizontalTextShift := fixedHorizontalTextShift,
    maxHorizontalSpaceAvaliable :=
      if autoWidth then
        s.parentViewport.width * LegendMaxWidthFactor - fixedHorizontalTextShift -
          LegendEdgeMariginWidth
      else
        s.lastCalculatedWidth - fixedHorizontalTextShift - LegendEdgeMariginWidth,
    parentHeight := s.parentViewport.height }

/-- The vertical pass's title pre-processing: position the title and seed
the occupied height (the title branch reserves `spaceNeededByTitle`
twice) and the max used width (`title.width || 0`). -/
def vertTitleInit (title : Option TitleLayout) (spaceNeededByTitle : ℚ) :
    Option TitleLayout × ℚ × ℚ :=
  match title with
  | some t =>
    (some { t with x := TextAndIconPadding, y := spaceNeededByTitle },
     spaceNeededByTitle + spaceNeededByTitle,
     if t.width ≠ 0 then t.width else 0)
  | none => (none, spaceNeededByTitle, 0)

/-- The vertical pass's final width/footprint update: in auto-width mode
the legend shrinks to the widest item used (never exceeding the
max-width fraction of the parent); in fixed-width mode the cached width
is reused. -/
def vertWidthUpdate (s : LegendState) (maxHorizontalSpaceAvaliable
    fixedHorizontalTextShift maxUsedF : ℚ) (autoWidth : Bool) : LegendState :=
  if autoWidth then
    if maxUsedF < maxHorizontalSpaceAvaliable then
      let w := jsCeil (maxUsedF + fixedHorizontalTextShift + LegendEdgeMariginWidth)
      { s with lastCalculatedWidth := w,
               viewport := { s.viewport with width := w } }
    else
      let w := jsCeil (s.parentViewport.width * LegendMaxWidthFactor)
      { s with lastCalculatedWidth := w,
               viewport := { s.viewport with width := w } }
  else
    { s with viewport := { s.viewport with width := s.lastCalculatedWidth } }

/-- `calculateVerticalLayout`. -/
def calculateVerticalLayout (tm : TextMeasure) (s : LegendState)
    (dataPoints : List LegendDataPoint) (title : Option TitleLayout)
    (navigationArrows : List NavigationArrow) (autoWidth : Bool) :
    ℕ × LegendState × List LegendDataPoint × Option TitleLayout ×
      List NavigationArrow :=
  let ctx := mkVertCtx tm s dataPoints autoWidth
  let spaceNeededByTitle := 15 + ctx.fontFactor * (13 / 10)
  let tinit := vertTitleInit title spaceNeededByTitle
  let totalSpaceOccupiedThusFar :=
    if s.legendDataStartIndex > 0 then tinit.2.1 + LegendArrowOffset else tinit.2.1
  let loop := vertLoop tm ctx totalSpaceOccupiedThusFar tinit.2.2 0 dataPoints
  let numberOfItems := loop.2.2.2.getD dataPoints.length
  let s1 := vertWidthUpdate s ctx.maxHorizontalSpaceAvaliable
    ctx.fixedHorizontalTextShift loop.2.2.1 autoWidth
  let s2 := { s1 with visibleLegendHeight := loop.2.1 - ctx.verticalLegendHeight }
  let title2 := tinit.1.map (fun t =>
    let textProperties := getTextProperties true s2.data.title s2.data.fontSize
    { t with text := tm.tailor textProperties s2.viewport.width })
  let arrows := navigationArrows.map (fun d => { d with x := s2.lastCalculatedWidth / 2 })
  let upd := updateNavigationArrowLayout s2 arrows dataPoints.length numberOfItems
  (numberOfItems, upd.1, loop.1, title2, upd.2)

/-! ## Layout orchestration -/

/-- `calculateLayout`: empty data short-circuits to an empty layout;
otherwise the font-size margins are derived, the pagination index is
clamped, the window sliced, and the per-orientation pass is run.
Returns the updated state, the layout, and the data-point list as it
stands after the pass's in-place mutations (window points annotated,
points before the window untouched). -/
def layoutSetupState (s : LegendState) (len : ℕ) : LegendState :=
  let s := { s with
    legendFontSizeMarginValue := fromPointToPixel s.data.fontSize }
  let s := { s with
    legendFontSizeMarginDifference := s.legendFontSizeMarginValue - DefaultTextMargin }
  { s with legendDataStartIndex := normalizeIdx s.legendDataStartIndex len }

/-- The pagination window: the data points from the (clamped) start index
onward. -/
def layoutWindow (idx : ℤ) (pts : List LegendDataPoint) : List LegendDataPoint :=
  if idx < (pts.length : ℤ) then pts.drop idx.toNat else pts

def calculateLayout (tm : TextMeasure) (s : LegendState) (data : LegendData)
    (autoWidth : Bool) :
    Option (LegendState × LegendLayout × List LegendDataPoint) :=
  if data.dataPoints = [] then
    some (s, { numberOfItems := 0, title := none, navigationArrows := [] },
          data.dataPoints)
  else
    let s := layoutSetupState s data.dataPoints.length
    let window := layoutWindow s.legendDataStartIndex data.dataPoints
    let title := calculateTitleLayout tm s data.title
    if isTopOrBottom s.orientation then
      (calculateHorizontalLayout tm s window title
        (if s.isScrollable then calculateHorizontalNavigationArrowsLayout s title
         else [])).map
        (fun r =>
          (r.2.1,
           { numberOfItems := r.1, title := r.2.2.2.1,
             navigationArrows := r.2.2.2.2 },
           data.dataPoints.take s.legendDataStartIndex.toNat ++ r.2.2.1))
    else
      let r := calculateVerticalLayout tm s window title
        (if s.isScrollable then calculateVerticalNavigationArrowsLayout s title
         else []) autoWidth
      some (r.2.1,
            { numberOfItems := r.1, title := r.2.2.2.1,
              navigationArrows := r.2.2.2.2 },
            data.dataPoints.take s.legendDataStartIndex.toNat ++ r.2.2.1)

/-- `drawLegendInternal` (rendering steps omitted; the map-control
workaround, selection application, and the d3 painting act only on the
DOM).  Returns the state after the pass, the layout, and the data-point
list as mutated by the pass. -/
def drawLegendInternal (tm : TextMeasure) (s : LegendState) (data : LegendData)
    (viewport : Viewport) (autoWidth : Bool) :
    Option (LegendState × LegendLayout × List LegendDataPoint) :=
  let s := { s with parentViewport := viewport, data := data }
  let s := if data.dataPoints = [] then changeOrientation s .None else s
  let data := if getOrientation s = .None then { data with dataPoints := [] } else data
  let s := { s with data := data,
                    showPrimary := decide ¬(data.primaryType = some "None") }
  let s := calculateViewport s
  match calculateLayout tm s data autoWidth with
  | none => none
  | some (s, layout, dataPoints') =>
    let s := { s with data := { data with dataPoints := dataPoints' } }
    let s := updateLayout s
    some (s, layout, dataPoints')

/-- `setTooltipToLegendItems`: snapshot every label into its point's
tooltip before any truncation. -/
def setTooltipToLegendItems (data : LegendData) : LegendData :=
  { data with dataPoints :=
      data.dataPoints.map (fun dp => { dp with tooltip := some dp.label }) }

/-- `drawLegend`: clone the incoming data and points (value semantics of
the embedding realise `Prototype.inherit`), snapshot tooltips, then run
the internal pass with auto width. -/
def drawLegend (tm : TextMeasure) (s : LegendState) (data : LegendData)
    (viewport : Viewport) :
    Option (LegendState × LegendLayout × List LegendDataPoint) :=
  let clonedData := { data with dataPoints := data.dataPoints }
  let clonedData := setTooltipToLegendItems clonedData
  drawLegendInternal tm s clonedData viewport true

/-- A navigation-arrow activation (`drawNavigationArrows`' click handler):
advance the start index by the stored window size and synchronously
re-lay out the stored data with `autoWidth = false`. -/
def clickArrow (tm : TextMeasure) (s : LegendState) (dir : NavigationArrowType) :
    Option (LegendState × LegendLayout × List LegendDataPoint) :=
  let pos := s.legendDataStartIndex
  let s := { s with legendDataStartIndex :=
    match dir with
    | .Increase => pos + (s.arrowPosWindow : ℤ)
    | .Decrease => pos - (s.arrowPosWindow : ℤ) }
  drawLegendInternal tm s s.data s.parentViewport false

/-! ## A concrete text-metrics collaborator

Used to instantiate theorems with hypotheses on concrete inputs: every
character is 10px wide, truncation keeps as many characters as fit. -/

def simpleTM : TextMeasure where
  measureWidth := fun tp => 10 * ((tp.text.getD "").length : ℚ)
  tailor := fun tp w =>
    let t := tp.text.getD ""
    if 10 * (t.length : ℚ) ≤ w then t
    else String.mk (t.data.take (jsTrunc (w / 10)).toNat)
  estimateHeight := fun _ => 16
  lineIconWidth := 31

/-- Sample data points and states shared by the concrete instantiations
below. -/
def mkDP (l : String) : LegendDataPoint := { label := l }

def state0 : LegendState :=
  { orientation := .Top, viewport := ⟨0, 0⟩, parentViewport := ⟨0, 0⟩,
    legendDataStartIndex := 0, arrowPosWindow := 1, data := { dataPoints := [] },
    isScrollable := true, showPrimary := false, lastCalculatedWidth := 0,
    visibleLegendWidth := 0, visibleLegendHeight := 0,
    legendFontSizeMarginDifference := 0, legendFontSizeMarginValue := 0,
    svgWidth := 0, svgHeight := 0 }

/-- Six sample points whose fifth label is wide: the first page fits
three items, the page starting at index 3 fits only two. -/
def cexData : LegendData :=
  { title := none,
    dataPoints := [mkDP "a", mkDP "b", mkDP "c", mkDP "d", mkDP "eeeeeeeeeeee",
                   mkDP "f"],
    fontSize := 8, primaryType := some "None" }

/-- The vertical pass's loop call, abbreviated for the projection lemmas
below. -/
def vertRunLoop (tm : TextMeasure) (s : LegendState) (pts : List LegendDataPoint)
    (t : Option TitleLayout) (aw : Bool) : List LegendDataPoint × ℚ × ℚ × Option ℕ :=
  vertLoop tm (mkVertCtx tm s pts aw)
    (if s.legendDataStartIndex > 0 then
      (vertTitleInit t (15 + (mkVertCtx tm s pts aw).fontFactor * (13 / 10))).2.1 +
        LegendArrowOffset
     else (vertTitleInit t (15 + (mkVertCtx tm s pts aw).fontFactor * (13 / 10))).2.1)
    (vertTitleInit t (15 + (mkVertCtx tm s pts aw).fontFactor * (13 / 10))).2.2 0 pts

/-- The vertical pass's post-loop state, abbreviated for the projection
lemmas below. -/
def vertRunState (tm : TextMeasure) (s : LegendState) (pts : List LegendDataPoint)
    (t : Option TitleLayout) (aw : Bool) : LegendState :=
  { vertWidthUpdate s (mkVertCtx tm s pts aw).maxHorizontalSpaceAvaliable
      (mkVertCtx tm s pts aw).fixedHorizontalTextShift (vertRunLoop tm s pts t aw).2.2.1
      aw with
    visibleLegendHeight :=
      (vertRunLoop tm s pts t aw).2.1 - (mkVertCtx tm s pts aw).verticalLegendHeight }

/-- Four sample points whose third label is wide: the first page fits
three items; the page starting at index 3 holds exactly the one remaining
item, so the navigation-arrow update rolls the stored window size back. -/
def witData : LegendData :=
  { title := none,
    dataPoints := [mkDP "a", mkDP "b", mkDP "cccccccccccc", mkDP "d"],
    fontSize := 8, primaryType := some "None" }

/-- The widget state after drawing `witData` into a 190px-wide parent
viewport: three items fit, the stored window size is 3, the start index
is 0. -/
def stateW4 : LegendState :=
  ((drawLegend simpleTM state0 witData ⟨190, 24⟩).map (fun r => r.1)).getD state0

/-- The result of one Increase activation on `stateW4`: the re-layout
lands on the last page, so the stored window size rolls back to 3 — equal
to the new start index. -/
def w4Inc : LegendState × LegendLayout × List LegendDataPoint :=
  (clickArrow simpleTM stateW4 .Increase).getD (state0, ⟨0, none, []⟩, [])

/-- The result of drawing `cexData` into a 190px-wide parent viewport:
three items fit, the stored window size is 3, the start index is 0. -/
def c4Draw : LegendState × LegendLayout × List LegendDataPoint :=
  (drawLegend simpleTM state0 cexData ⟨190, 24⟩).getD (state0, ⟨0, none, []⟩, [])

/-- The result of one Increase activation on the drawn `cexData` legend:
the start index advances to 3, but the re-layout finds only two of the
remaining points fit (the wide fifth label), so the stored window size
becomes 2. -/
def c4Inc : LegendState × LegendLayout × List LegendDataPoint :=
  (clickArrow simpleTM c4Draw.1 .Increase).getD (state0, ⟨0, none, []⟩, [])

/-- The result of the following Decrease activation: it subtracts the
then-current window size 2, landing on index 1, not 0. -/
def c4Dec : LegendState × LegendLayout × List LegendDataPoint :=
  (clickArrow simpleTM c4Inc.1 .Decrease).getD (state0, ⟨0, none, []⟩, [])

/-- The result of drawing `cexData` into a 500px-wide parent viewport
(all six points fit on one page). -/
def c7Draw : LegendState × LegendLayout × List LegendDataPoint :=
  (drawLegend simpleTM state0 cexData ⟨500, 24⟩).getD (state0, ⟨0, none, []⟩, [])

/-- Heap model of `drawLegend`'s defensive cloning.  The caller's object
graph is a store of `LegendData` cells and `LegendDataPoint` cells
(references are indices).  `drawLegend` allocates a fresh clone of the
data object (`Prototype.inherit(data)`) and a fresh clone of every data
point (the `newDataPoints` push loop) before any mutation: the tooltip
snapshot, the label/measure truncations, the `dataPoints = []` reset in
the no-orientation path and the glyph/text position assignments are all
writes through the fresh references, so the store update is an append —
no existing cell index is written.  When the pass completes, the point
clones hold the returned annotated points and the data clone holds the
widget's stored data; when the pass throws (the unguarded measure
dereference), the clones hold the tooltip-annotated copies made before
the crash. -/
def drawLegendHeap (tm : TextMeasure) (s : LegendState)
    (dataCells : List LegendData) (pointCells : List LegendDataPoint)
    (data : LegendData) (vp : Viewport) :
    List LegendData × List LegendDataPoint ×
      Option (LegendState × LegendLayout × List LegendDataPoint) :=
  let res : Option (LegendState × LegendLayout × List LegendDataPoint) :=
    drawLegend tm s data vp
  let newPoints := match res with
    | some r => r.2.2
    | none => (setTooltipToLegendItems data).dataPoints
  let newData := match res with
    | some r => r.1.data
    | none => setTooltipToLegendItems data
  (dataCells ++ [newData], pointCells ++ newPoints, res)

/-- A widget state with a zero-width parent viewport over `cexData`. -/
def stateZeroW : LegendState :=
  { state0 with data := cexData, parentViewport := ⟨0, 24⟩ }

/-- A widget state with a 500px-wide parent viewport (all six `cexData`
points fit). -/
def stateC3 : LegendState :=
  { state0 with data := cexData, parentViewport := ⟨500, 24⟩ }

/-! ## Theorems -/

theorem simpleTM_contract : TMContract simpleTM := by
  refine ⟨fun tp => ?_, by norm_num [simpleTM], fun tp w hw => ?_, fun tp w h => ?_⟩
  · simp only [simpleTM]
    positivity
  · simp only [simpleTM]
    split
    · assumption
    · have h2 : ((tp.text.getD "").data.take (jsTrunc (w / 10)).toNat).length ≤
          (jsTrunc (w / 10)).toNat := List.length_take_le _ _
      have h3 : ((jsTrunc (w / 10)).toNat : ℚ) ≤ w / 10 := by
        have h10 : jsTrunc (w / 10) = ⌊w / 10⌋ := by
          simp only [jsTrunc, if_pos (by positivity : (0:ℚ) ≤ w / 10)]
        have hfl : (0:ℤ) ≤ ⌊w / 10⌋ := Int.floor_nonneg.mpr (by positivity)
        rw [show (((jsTrunc (w / 10)).toNat : ℕ) : ℚ) = (((jsTrunc (w / 10)).toNat : ℤ) : ℚ) by
          push_cast; ring, h10, Int.toNat_of_nonneg hfl]
        exact Int.floor_le (w / 10)
      have h4 := (Nat.cast_le (α := ℚ)).mpr h2
      simp only [Option.getD_some, String.length]
      nlinarith
  · simp only [simpleTM] at h ⊢
    exact if_pos h


/-! ## C2 — pagination clamp -/

/-- C2: for every stored `startIndex : ℤ` and data length `L`, after
`normalizePosition` runs the stored index lies in `[0, max 0 (L−1)]`;
indices at or above `L` are clamped to `L − 1` (which the second clamp
lifts to `0` when `L = 0`), negative indices are clamped to `0`, and
in-range indices are untouched. -/
theorem normalizePosition_clamps (startIndex : ℤ) (L : ℕ) :
    0 ≤ normalizeIdx startIndex L ∧
    normalizeIdx startIndex L ≤ max 0 ((L : ℤ) - 1) ∧
    ((L : ℤ) ≤ startIndex → normalizeIdx startIndex L = max 0 ((L : ℤ) - 1)) ∧
    (startIndex < 0 → normalizeIdx startIndex L = 0) ∧
    (0 ≤ startIndex → startIndex < (L : ℤ) → normalizeIdx startIndex L = startIndex) := by
  simp only [normalizeIdx]
  split_ifs <;> omega

/-- Concrete instantiation of the C2 clamp characterization. -/
theorem normalizePosition_clamps_witness :
    normalizeIdx 1000 6 = 5 ∧ normalizeIdx (-1000) 6 = 0 ∧ normalizeIdx 17 0 = 0 ∧
    normalizeIdx 3 6 = 3 := by
  refine ⟨?_, ?_, ?_, ?_⟩
  · have := (normalizePosition_clamps 1000 6).2.2.1 (by decide)
    simpa using this
  · exact (normalizePosition_clamps (-1000) 6).2.2.2.1 (by decide)
  · have := (normalizePosition_clamps 17 0).2.2.1 (by decide)
    simpa using this
  · exact (normalizePosition_clamps 3 6).2.2.2.2 (by decide) (by decide)

/-! ## C6 — empty data -/

/-- C6: calling `drawLegend` with zero data points forces the orientation
to `None` (so `isVisible` is false), collapses the legend's own footprint
viewport to `{width := 0, height := 0}`, and produces the empty layout:
`numberOfItems = 0`, no title, no navigation arrows. -/
theorem drawLegend_empty (tm : TextMeasure) (s : LegendState) (data : LegendData)
    (vp : Viewport) (h : data.dataPoints = []) :
    ∃ s' : LegendState,
      drawLegend tm s data vp =
        some (s', { numberOfItems := 0, title := none, navigationArrows := [] }, []) ∧
      s'.orientation = .None ∧ isVisible s' = false ∧
      s'.viewport = { width := 0, height := 0 } := by
  obtain ⟨t, dps, fs, pt⟩ := data
  simp only at h
  subst h
  exact ⟨_, rfl, rfl, rfl, rfl⟩

/-- Concrete instantiation of C6. -/
theorem drawLegend_empty_witness :
    ∃ s' : LegendState,
      drawLegend simpleTM state0 { dataPoints := [] } ⟨300, 24⟩ =
        some (s', { numberOfItems := 0, title := none, navigationArrows := [] }, []) ∧
      s'.orientation = .None ∧ isVisible s' = false ∧
      s'.viewport = { width := 0, height := 0 } :=
  drawLegend_empty simpleTM state0 { dataPoints := [] } ⟨300, 24⟩ rfl

/-! ## C9 — orientation `None` is absorbing -/

/-- C9: once the orientation is `None`, every `drawLegendInternal` call —
even one supplying non-empty data — clears the data points, lays out
nothing and leaves the orientation `None`; and an explicit
`changeOrientation` call with a truthy non-`None` placement restores
visibility. -/
theorem orientationNone_absorbing (tm : TextMeasure) (s : LegendState)
    (data : LegendData) (vp : Viewport) (autoWidth : Bool) (p : LegendPosition)
    (hN : s.orientation = .None) (hp : p.truthy = true) (hpN : p ≠ .None) :
    (∃ s' : LegendState,
      drawLegendInternal tm s data vp autoWidth =
        some (s', { numberOfItems := 0, title := none, navigationArrows := [] }, []) ∧
      s'.orientation = .None ∧ isVisible s' = false) ∧
    (changeOrientation s p).orientation = p ∧
    isVisible (changeOrientation s p) = true := by
  refine ⟨?_, ?_, ?_⟩
  · obtain ⟨o, v, pv, idx, aw, d0, sc, sp, lcw, vw, vh, md, mv, sw, sh⟩ := s
    simp only at hN
    subst hN
    obtain ⟨t, dps, fs, pt⟩ := data
    cases dps with
    | nil => exact ⟨_, rfl, rfl, rfl⟩
    | cons d rest => exact ⟨_, rfl, rfl, rfl⟩
  · simp only [changeOrientation, if_pos hp]
  · simp only [changeOrientation, if_pos hp, isVisible]
    simpa using hpN

/-- Concrete instantiation of C9: after an empty draw the legend ignores
later non-empty draws until `changeOrientation` is called. -/
theorem orientationNone_absorbing_witness :
    (∃ s' : LegendState,
      drawLegendInternal simpleTM { state0 with orientation := .None }
          { dataPoints := [mkDP "a"] } ⟨300, 24⟩ true =
        some (s', { numberOfItems := 0, title := none, navigationArrows := [] }, []) ∧
      s'.orientation = .None ∧ isVisible s' = false) ∧
    (changeOrientation { state0 with orientation := .None } .Right).orientation = .Right ∧
    isVisible (changeOrientation { state0 with orientation := .None } .Right) = true :=
  orientationNone_absorbing simpleTM { state0 with orientation := .None }
    { dataPoints := [mkDP "a"] } ⟨300, 24⟩ true .Right rfl rfl (by decide)

/-! ## C10 — the unguarded `dataPoints[0].measure` dereference -/

/-- C10: when the primary column is shown (`primaryType ≠ "None"`),
`calculateHorizontalLayout` reads `dataPoints[0].measure.length` with no
guard — a window whose first point lacks a measure string crashes the
pass; under the precondition that every point of the window carries a
defined measure the pass is total (its error branch is unreachable).
The vertical pass has no such dereference and is total by construction
(`calculateVerticalLayout` is not `Option`-valued). -/
theorem horizontalLayout_measure_deref (tm : TextMeasure) (s : LegendState)
    (window : List LegendDataPoint) (title : Option TitleLayout)
    (arrows : List NavigationArrow) :
    ((s.showPrimary = true → ∀ dp ∈ window, dp.measure.isSome) → window ≠ [] →
      (calculateHorizontalLayout tm s window title arrows).isSome = true) ∧
    (∀ dp rest, s.showPrimary = true → window = dp :: rest → dp.measure = none →
      calculateHorizontalLayout tm s window title arrows = none) := by
  constructor
  · intro hpre hne
    rcases window with _ | ⟨dp, rest⟩
    · exact absurd rfl hne
    · simp only [calculateHorizontalLayout]
      rw [if_neg]
      · rfl
      · rintro ⟨hsp, hnone⟩
        have := hpre hsp dp (by simp)
        simp only [horizMeasureDeref] at hnone
        rw [hnone] at this
        simp at this
  · intro dp rest hsp hw hnone
    subst hw
    simp only [calculateHorizontalLayout, horizMeasureDeref]
    rw [if_pos ⟨hsp, hnone⟩]

/-- Concrete instantiation of C10: a defined measure makes the horizontal
pass succeed, an undefined one crashes it. -/
theorem horizontalLayout_measure_deref_witness :
    (calculateHorizontalLayout simpleTM { state0 with showPrimary := true }
      [{ mkDP "a" with measure := some "1" }] none []).isSome = true ∧
    calculateHorizontalLayout simpleTM { state0 with showPrimary := true }
      [mkDP "a"] none [] = none := by
  constructor
  · refine (horizontalLayout_measure_deref simpleTM { state0 with showPrimary := true }
      [{ mkDP "a" with measure := some "1" }] none []).1 ?_ (by simp)
    intro _ dp hdp
    have : dp = { mkDP "a" with measure := some "1" } := by simpa using hdp
    rw [this]
    rfl
  · exact (horizontalLayout_measure_deref simpleTM { state0 with showPrimary := true }
      [mkDP "a"] none []).2 (mkDP "a") [] rfl rfl rfl

@[simp] lemma layoutSetupState_orientation (s : LegendState) (len : ℕ) :
    (layoutSetupState s len).orientation = s.orientation := rfl
@[simp] lemma layoutSetupState_isScrollable (s : LegendState) (len : ℕ) :
    (layoutSetupState s len).isScrollable = s.isScrollable := rfl
@[simp] lemma layoutSetupState_arrowPosWindow (s : LegendState) (len : ℕ) :
    (layoutSetupState s len).arrowPosWindow = s.arrowPosWindow := rfl
@[simp] lemma layoutSetupState_legendDataStartIndex (s : LegendState) (len : ℕ) :
    (layoutSetupState s len).legendDataStartIndex =
      normalizeIdx s.legendDataStartIndex len := rfl

lemma vertWidthUpdate_proj (s : LegendState) (a b c : ℚ) (aw : Bool) :
    (vertWidthUpdate s a b c aw).legendDataStartIndex = s.legendDataStartIndex ∧
    (vertWidthUpdate s a b c aw).arrowPosWindow = s.arrowPosWindow := by
  unfold vertWidthUpdate
  split_ifs <;> exact ⟨rfl, rfl⟩

lemma updateNav_spec (s : LegendState) (a b : NavigationArrow)
    (remaining visible : ℕ)
    (ha : a.dataType = .Decrease) (hb : b.dataType = .Increase) :
    ((∃ x ∈ (updateNavigationArrowLayout s [a, b] remaining visible).2,
        x.dataType = NavigationArrowType.Decrease) ↔ s.legendDataStartIndex ≠ 0) ∧
    ((∃ x ∈ (updateNavigationArrowLayout s [a, b] remaining visible).2,
        x.dataType = NavigationArrowType.Increase) ↔ visible ≠ remaining) ∧
    (visible = remaining →
      (updateNavigationArrowLayout s [a, b] remaining visible).1.arrowPosWindow =
        s.arrowPosWindow) ∧
    (visible ≠ remaining →
      (updateNavigationArrowLayout s [a, b] remaining visible).1.arrowPosWindow =
        visible) ∧
    (updateNavigationArrowLayout s [a, b] remaining visible).1.legendDataStartIndex =
      s.legendDataStartIndex := by
  by_cases h0 : s.legendDataStartIndex = 0 <;> by_cases hv : visible = remaining <;>
    simp [updateNavigationArrowLayout, h0, hv, ha, hb, List.dropLast]

section RunProj

variable (tm : TextMeasure) (s : LegendState) (pts : List LegendDataPoint)
  (t : Option TitleLayout) (a : List NavigationArrow) (aw : Bool)

lemma horizRun_n :
    (calculateHorizontalLayoutRun tm s pts t a).1 =
      (horizLoop tm (mkHorizCtx tm s pts t).1 (mkHorizCtx tm s pts t).2.2 0 pts).2.2.getD
        pts.length := rfl

lemma horizRun_state :
    (calculateHorizontalLayoutRun tm s pts t a).2.1 =
      (updateNavigationArrowLayout
        { s with visibleLegendWidth :=
            (horizLoop tm (mkHorizCtx tm s pts t).1 (mkHorizCtx tm s pts t).2.2 0 pts).2.1 }
        a pts.length
        ((horizLoop tm (mkHorizCtx tm s pts t).1 (mkHorizCtx tm s pts t).2.2 0
            pts).2.2.getD pts.length)).1 := rfl

lemma horizRun_arrows :
    (calculateHorizontalLayoutRun tm s pts t a).2.2.2.2 =
      (updateNavigationArrowLayout
        { s with visibleLegendWidth :=
            (horizLoop tm (mkHorizCtx tm s pts t).1 (mkHorizCtx tm s pts t).2.2 0 pts).2.1 }
        a pts.length
        ((horizLoop tm (mkHorizCtx tm s pts t).1 (mkHorizCtx tm s pts t).2.2 0
            pts).2.2.getD pts.length)).2 := rfl

lemma vertRun_n :
    (calculateVerticalLayout tm s pts t a aw).1 =
      (vertRunLoop tm s pts t aw).2.2.2.getD pts.length := rfl

lemma vertRun_state :
    (calculateVerticalLayout tm s pts t a aw).2.1 =
      (updateNavigationArrowLayout (vertRunState tm s pts t aw)
        (a.map (fun d =>
          { d with x := (vertRunState tm s pts t aw).lastCalculatedWidth / 2 }))
        pts.length ((vertRunLoop tm s pts t aw).2.2.2.getD pts.length)).1 := rfl

lemma vertRun_arrows :
    (calculateVerticalLayout tm s pts t a aw).2.2.2.2 =
      (updateNavigationArrowLayout (vertRunState tm s pts t aw)
        (a.map (fun d =>
          { d with x := (vertRunState tm s pts t aw).lastCalculatedWidth / 2 }))
        pts.length ((vertRunLoop tm s pts t aw).2.2.2.getD pts.length)).2 := rfl

end RunProj

lemma vertRunState_proj (tm : TextMeasure) (s : LegendState)
    (pts : List LegendDataPoint) (t : Option TitleLayout) (aw : Bool) :
    (vertRunState tm s pts t aw).legendDataStartIndex = s.legendDataStartIndex ∧
    (vertRunState tm s pts t aw).arrowPosWindow = s.arrowPosWindow := by
  unfold vertRunState
  exact ⟨(vertWidthUpdate_proj _ _ _ _ _).1, (vertWidthUpdate_proj _ _ _ _ _).2⟩

/-- C5: after a layout pass of a scrollable legend over non-empty data,
the Decrease (previous-page) arrow is absent from the returned
navigation-arrow list exactly when the (clamped) `startIndex` is 0, the
Increase (next-page) arrow is absent exactly when the just-computed
window size `numberOfItems` equals the count of remaining un-paged
points, and in that suppression case the stored `arrowPosWindow` is
rolled back to its previous value, otherwise it is set to the new window
size. -/
theorem arrowVisibility (tm : TextMeasure) (s : LegendState) (data : LegendData)
    (autoWidth : Bool) (hsc : s.isScrollable = true) (hne : data.dataPoints ≠ [])
    (r : LegendState × LegendLayout × List LegendDataPoint)
    (h : calculateLayout tm s data autoWidth = some r) :
    ((∃ x ∈ r.2.1.navigationArrows, x.dataType = NavigationArrowType.Decrease) ↔
      r.1.legendDataStartIndex ≠ 0) ∧
    ((∃ x ∈ r.2.1.navigationArrows, x.dataType = NavigationArrowType.Increase) ↔
      r.2.1.numberOfItems ≠
        (data.dataPoints.drop r.1.legendDataStartIndex.toNat).length) ∧
    (r.2.1.numberOfItems =
        (data.dataPoints.drop r.1.legendDataStartIndex.toNat).length →
      r.1.arrowPosWindow = s.arrowPosWindow) ∧
    (r.2.1.numberOfItems ≠
        (data.dataPoints.drop r.1.legendDataStartIndex.toNat).length →
      r.1.arrowPosWindow = r.2.1.numberOfItems) := by
  have hlen : 0 < data.dataPoints.length := List.length_pos.mpr hne
  have hidxlt : normalizeIdx s.legendDataStartIndex data.dataPoints.length <
      (data.dataPoints.length : ℤ) := by
    have := (normalizePosition_clamps s.legendDataStartIndex data.dataPoints.length).2.1
    omega
  rw [calculateLayout, if_neg hne] at h
  set s2 := layoutSetupState s data.dataPoints.length with hs2
  have hwin : layoutWindow s2.legendDataStartIndex data.dataPoints =
      data.dataPoints.drop s2.legendDataStartIndex.toNat := by
    rw [layoutWindow, if_pos]
    rw [hs2, layoutSetupState_legendDataStartIndex]
    exact hidxlt
  by_cases hor : isTopOrBottom s.orientation
  · rw [if_pos (by simpa [hs2] using hor)] at h
    rw [if_pos (by simpa [hs2] using hsc)] at h
    rw [calculateHorizontalLayout] at h
    by_cases hg : s2.showPrimary = true ∧
        horizMeasureDeref (layoutWindow s2.legendDataStartIndex data.dataPoints) = none
    · rw [if_pos (by exact_mod_cast hg)] at h
      simp at h
    · rw [if_neg (by exact_mod_cast hg)] at h
      simp only [Option.map_some'] at h
      obtain rfl := (Option.some.inj h).symm
      dsimp only
      obtain ⟨a, b, harr, ha, hb⟩ : ∃ a b,
          calculateHorizontalNavigationArrowsLayout s2
            (calculateTitleLayout tm s2 data.title) = [a, b] ∧
          a.dataType = NavigationArrowType.Decrease ∧
          b.dataType = NavigationArrowType.Increase := ⟨_, _, rfl, rfl, rfl⟩
      rw [horizRun_n, horizRun_state, horizRun_arrows, harr]
      obtain ⟨hdec, hinc, hroll, hnoroll, hidx⟩ := updateNav_spec
        { s2 with visibleLegendWidth :=
            (horizLoop tm
              (mkHorizCtx tm s2 (layoutWindow s2.legendDataStartIndex data.dataPoints)
                (calculateTitleLayout tm s2 data.title)).1
              (mkHorizCtx tm s2 (layoutWindow s2.legendDataStartIndex data.dataPoints)
                (calculateTitleLayout tm s2 data.title)).2.2 0
              (layoutWindow s2.legendDataStartIndex data.dataPoints)).2.1 }
        a b (layoutWindow s2.legendDataStartIndex data.dataPoints).length
        ((horizLoop tm
            (mkHorizCtx tm s2 (layoutWindow s2.legendDataStartIndex data.dataPoints)
              (calculateTitleLayout tm s2 data.title)).1
            (mkHorizCtx tm s2 (layoutWindow s2.legendDataStartIndex data.dataPoints)
              (calculateTitleLayout tm s2 data.title)).2.2 0
            (layoutWindow s2.legendDataStartIndex data.dataPoints)).2.2.getD
          (layoutWindow s2.legendDataStartIndex data.dataPoints).length)
        ha hb
      dsimp only at hdec hinc hroll hnoroll hidx
      rw [hwin] at hdec hinc hroll hnoroll hidx ⊢
      rw [hidx]
      exact ⟨hdec, hinc, fun hh => hroll hh, fun hh => hnoroll hh⟩
  · rw [if_neg (by simpa [hs2] using hor)] at h
    rw [if_pos (by simpa [hs2] using hsc)] at h
    obtain rfl := (Option.some.inj h).symm
    dsimp only
    obtain ⟨a, b, harr, ha, hb⟩ : ∃ a b,
        (calculateVerticalNavigationArrowsLayout s2
            (calculateTitleLayout tm s2 data.title)).map
          (fun d =>
            { d with x := (vertRunState tm s2
                (layoutWindow s2.legendDataStartIndex data.dataPoints)
                (calculateTitleLayout tm s2 data.title) autoWidth).lastCalculatedWidth /
              2 }) = [a, b] ∧
        a.dataType = NavigationArrowType.Decrease ∧
        b.dataType = NavigationArrowType.Increase := by
      rw [calculateVerticalNavigationArrowsLayout.eq_def, List.map_cons, List.map_cons,
        List.map_nil]
      exact ⟨_, _, rfl, rfl, rfl⟩
    rw [vertRun_n, vertRun_state, vertRun_arrows, harr]
    obtain ⟨hdec, hinc, hroll, hnoroll, hidx⟩ := updateNav_spec
      (vertRunState tm s2 (layoutWindow s2.legendDataStartIndex data.dataPoints)
        (calculateTitleLayout tm s2 data.title) autoWidth)
      a b (layoutWindow s2.legendDataStartIndex data.dataPoints).length
      ((vertRunLoop tm s2 (layoutWindow s2.legendDataStartIndex data.dataPoints)
          (calculateTitleLayout tm s2 data.title) autoWidth).2.2.2.getD
        (layoutWindow s2.legendDataStartIndex data.dataPoints).length)
      ha hb
    rw [(vertRunState_proj tm s2 (layoutWindow s2.legendDataStartIndex data.dataPoints)
          (calculateTitleLayout tm s2 data.title) autoWidth).1] at hdec hidx
    rw [(vertRunState_proj tm s2 (layoutWindow s2.legendDataStartIndex data.dataPoints)
          (calculateTitleLayout tm s2 data.title) autoWidth).2] at hroll
    rw [hwin] at hdec hinc hroll hnoroll hidx ⊢
    rw [hidx]
    exact ⟨hdec, hinc, fun hh => hroll hh, fun hh => hnoroll hh⟩

/-- Concrete instantiation of C5. -/
theorem arrowVisibility_witness :
    ∃ r : LegendState × LegendLayout × List LegendDataPoint,
      calculateLayout simpleTM state0 cexData true = some r ∧
      (((∃ x ∈ r.2.1.navigationArrows, x.dataType = NavigationArrowType.Decrease) ↔
          r.1.legendDataStartIndex ≠ 0) ∧
        ((∃ x ∈ r.2.1.navigationArrows, x.dataType = NavigationArrowType.Increase) ↔
          r.2.1.numberOfItems ≠
            (cexData.dataPoints.drop r.1.legendDataStartIndex.toNat).length) ∧
        (r.2.1.numberOfItems =
            (cexData.dataPoints.drop r.1.legendDataStartIndex.toNat).length →
          r.1.arrowPosWindow = state0.arrowPosWindow) ∧
        (r.2.1.numberOfItems ≠
            (cexData.dataPoints.drop r.1.legendDataStartIndex.toNat).length →
          r.1.arrowPosWindow = r.2.1.numberOfItems)) :=
  ⟨_, rfl, arrowVisibility simpleTM state0 cexData true rfl (by decide) _ rfl⟩

lemma horizLoop_brk_bound (tm : TextMeasure) (ctx : HorizCtx) :
    ∀ (pts : List LegendDataPoint) (occ : ℚ) (itr j : ℕ),
      (horizLoop tm ctx occ itr pts).2.2 = some j → itr ≤ j ∧ j < itr + pts.length := by
  intro pts
  induction pts with
  | nil => intro occ itr j h; simp [horizLoop] at h
  | cons dp rest ih =>
    intro occ itr j h
    rw [horizLoop] at h
    dsimp only at h
    split at h
    · simp only [Option.some.injEq] at h
      simp only [List.length_cons]
      omega
    · dsimp only at h
      have := ih (occ + (horizProcessDP tm ctx occ dp).2) (itr + 1) j h
      simp only [List.length_cons]
      omega

lemma vertLoop_brk_bound (tm : TextMeasure) (ctx : VertCtx) :
    ∀ (pts : List LegendDataPoint) (total maxUsed : ℚ) (itr j : ℕ),
      (vertLoop tm ctx total maxUsed itr pts).2.2.2 = some j →
        itr ≤ j ∧ j < itr + pts.length := by
  intro pts
  induction pts with
  | nil => intro total maxUsed itr j h; simp [vertLoop] at h
  | cons dp rest ih =>
    intro total maxUsed itr j h
    rw [vertLoop] at h
    dsimp only at h
    split at h
    · simp only [Option.some.injEq] at h
      simp only [List.length_cons]
      omega
    · dsimp only at h
      have := ih (vertProcessDP tm ctx total dp).2.1
        (if (vertProcessDP tm ctx total dp).2.2 > maxUsed
         then (vertProcessDP tm ctx total dp).2.2 else maxUsed) (itr + 1) j h
      simp only [List.length_cons]
      omega

lemma getMarkerShapeWidth_nonneg (tm : TextMeasure) (hc : TMContract tm)
    (m : Option MarkerShape) : 0 ≤ getMarkerShapeWidth tm m := by
  match m with
  | none => norm_num [getMarkerShapeWidth, LegendIconRadius]
  | some MarkerShape.circle => norm_num [getMarkerShapeWidth, LegendIconRadius]
  | some MarkerShape.square => norm_num [getMarkerShapeWidth, LegendIconRadius]
  | some MarkerShape.longDash => exact hc.lineIcon_nonneg

lemma horizMargin_ge (s : LegendState) : TextAndIconPadding ≤ horizMargin s := by
  rw [horizMargin]
  split_ifs with h
  · linarith
  · exact le_refl _

lemma itemMeasuredWidth_ge (tm : TextMeasure) (hc : TMContract tm)
    (sp : Bool) (fs : ℚ) (dp : LegendDataPoint) :
    15 ≤ itemMeasuredWidth tm sp fs dp := by
  rw [itemMeasuredWidth]
  have h1 := hc.measure_nonneg (getTextProperties false (some dp.label) fs)
  have h2 := hc.measure_nonneg (getTextProperties false dp.measure fs)
  have h3 := hc.measure_nonneg (getTextProperties false dp.secondaryMeasure fs)
  split_ifs <;> linarith

lemma jsMaxWith_ge (c x : ℚ) : c ≤ jsMaxWith c x := by
  rw [jsMaxWith]
  split_ifs with h
  · linarith
  · exact le_refl c

lemma mkHorizCtx_fontSizeMargin (tm : TextMeasure) (s : LegendState)
    (pts : List LegendDataPoint) (t : Option TitleLayout) :
    (mkHorizCtx tm s pts t).1.fontSizeMargin = horizMargin s := rfl

lemma mkHorizCtx_icon (tm : TextMeasure) (s : LegendState)
    (pts : List LegendDataPoint) (t : Option TitleLayout) :
    (mkHorizCtx tm s pts t).1.iconTotalItemPadding =
      getMarkerShapeWidth tm (firstMarkerShape pts) + horizMargin s * 3 := rfl

lemma mkHorizCtx_maxTextLength_ge (tm : TextMeasure) (s : LegendState)
    (pts : List LegendDataPoint) (t : Option TitleLayout) :
    MaxTextLength ≤ (mkHorizCtx tm s pts t).1.maxTextLength := jsMaxWith_ge _ _

lemma mkHorizCtx_parentWidth (tm : TextMeasure) (s : LegendState)
    (pts : List LegendDataPoint) (t : Option TitleLayout) :
    (mkHorizCtx tm s pts t).1.parentWidth = s.parentViewport.width := rfl

lemma mkHorizCtx_occ0 (tm : TextMeasure) (s : LegendState)
    (pts : List LegendDataPoint) (t : Option TitleLayout)
    (b : ℚ) (hb : b ≤ 0) (htw : ∀ x, t = some x → b ≤ x.width) :
    b ≤ (mkHorizCtx tm s pts t).2.2 := by
  match t with
  | none =>
    show b ≤ if s.legendDataStartIndex > 0 then (0:ℚ) + LegendArrowOffset else 0
    rw [LegendArrowOffset]
    split_ifs <;> linarith
  | some x =>
    have := htw x rfl
    show b ≤ if s.legendDataStartIndex > 0 then x.width + LegendArrowOffset else x.width
    rw [LegendArrowOffset]
    split_ifs <;> linarith

lemma horizProcessDP_space_ge (tm : TextMeasure) (hc : TMContract tm)
    (ctx : HorizCtx) (occ : ℚ) (dp : LegendDataPoint)
    (hmax : MaxTextLength ≤ ctx.maxTextLength) :
    ctx.iconTotalItemPadding + 15 ≤ (horizProcessDP tm ctx occ dp).2 := by
  rw [horizProcessDP]
  dsimp only
  have hw := itemMeasuredWidth_ge tm hc ctx.showPrimary ctx.fontSize
    { dp with
      glyphPosition := some { x := occ + getMarkerShapeWidth tm dp.markerShape / 2,
                              y := ctx.fixedIconShift },
      textPosition := some { x := occ + ctx.fixedTextShift, y := ctx.fixedTextShift } }
  rw [MaxTextLength] at hmax
  split_ifs <;> dsimp only <;> linarith

lemma titleWidth_at_zero (tm : TextMeasure) (hc : TMContract tm) (s : LegendState)
    (title : Option String) (t : TitleLayout)
    (hW : s.parentViewport.width = 0) (hor : isTopOrBottom s.orientation = true)
    (hrel : s.legendFontSizeMarginDifference =
      s.legendFontSizeMarginValue - DefaultTextMargin)
    (h : calculateTitleLayout tm s title = some t) :
    t.width = -10 - horizMargin s := by
  have hmm : titleMaxMeasureLength s = -(25 : ℚ) - horizMargin s := by
    rw [titleMaxMeasureLength, if_pos hor, hW, horizMargin]
    have hiff : (s.legendFontSizeMarginValue > DefaultTextMargin) ↔
        (s.legendFontSizeMarginDifference > 0) := by
      rw [hrel]
      constructor <;> intro hx <;> linarith
    rw [if_congr hiff rfl rfl]
    split_ifs <;> (rw [LegendIconRadius, TextAndIconPadding, LegendMaxWidthFactor,
      LegendEdgeMariginWidth]; ring)
  have hmeas := hc.measure_nonneg (getTextProperties true title s.data.fontSize)
  have hmge : TextAndIconPadding ≤ horizMargin s := horizMargin_ge s
  rw [TextAndIconPadding] at hmge
  have htrunc : tm.measureWidth (getTextProperties true title s.data.fontSize) >
      titleMaxMeasureLength s := by
    rw [hmm]; linarith
  rw [calculateTitleLayout.eq_def] at h
  rcases title with _ | str
  · simp at h
  · dsimp only at h
    by_cases hT : (str != "") = true
    · rw [if_pos hT] at h
      rw [← Option.some.inj h]
      dsimp only
      rw [if_pos hor]
      dsimp only
      rw [if_pos htrunc]
      dsimp only
      rw [hmm, TitlePadding]
      ring
    · rw [if_neg hT] at h
      exact absurd h (by simp)

lemma horizRun_zero (tm : TextMeasure) (hc : TMContract tm) (s : LegendState)
    (dp : LegendDataPoint) (rest : List LegendDataPoint)
    (title : Option TitleLayout) (arrows : List NavigationArrow)
    (hW : s.parentViewport.width = 0)
    (htw : ∀ x, title = some x → x.width = -10 - horizMargin s) :
    (calculateHorizontalLayoutRun tm s (dp :: rest) title arrows).1 = 0 := by
  rw [horizRun_n]
  have hmge : TextAndIconPadding ≤ horizMargin s := horizMargin_ge s
  rw [TextAndIconPadding] at hmge
  have hmsw : 0 ≤ getMarkerShapeWidth tm (firstMarkerShape (dp :: rest)) :=
    getMarkerShapeWidth_nonneg tm hc _
  have hocc : -10 - horizMargin s ≤ (mkHorizCtx tm s (dp :: rest) title).2.2 := by
    apply mkHorizCtx_occ0
    · linarith
    · intro x hx
      rw [htw x hx]
  have hspace := horizProcessDP_space_ge tm hc (mkHorizCtx tm s (dp :: rest) title).1
    (mkHorizCtx tm s (dp :: rest) title).2.2 dp
    (mkHorizCtx_maxTextLength_ge tm s (dp :: rest) title)
  rw [mkHorizCtx_icon] at hspace
  have hpos : (mkHorizCtx tm s (dp :: rest) title).2.2 +
      (horizProcessDP tm (mkHorizCtx tm s (dp :: rest) title).1
        (mkHorizCtx tm s (dp :: rest) title).2.2 dp).2 >
      (mkHorizCtx tm s (dp :: rest) title).1.parentWidth := by
    rw [mkHorizCtx_parentWidth, hW]
    linarith
  rw [horizLoop]
  dsimp only
  rw [if_pos hpos]
  rfl

lemma vertProcessDP_total (tm : TextMeasure) (ctx : VertCtx) (total : ℚ)
    (dp : LegendDataPoint) :
    (vertProcessDP tm ctx total dp).2.1 =
      (if ctx.showPrimary then total + (20 + ctx.marginDifference / 2) * 2 else total) +
        ctx.verticalLegendHeight := by
  rfl

lemma mkVertCtx_fontFactor_nonneg (tm : TextMeasure) (s : LegendState)
    (pts : List LegendDataPoint) (aw : Bool) :
    0 ≤ (mkVertCtx tm s pts aw).fontFactor := by
  show (0:ℚ) ≤ if s.legendFontSizeMarginDifference > 0 then
    s.legendFontSizeMarginDifference else 0
  split_ifs <;> linarith

lemma vertRun_zero (tm : TextMeasure) (s : LegendState)
    (dp : LegendDataPoint) (rest : List LegendDataPoint)
    (title : Option TitleLayout) (arrows : List NavigationArrow) (aw : Bool)
    (hH : s.parentViewport.height = 0)
    (hdiff : -(40 : ℚ) ≤ s.legendFontSizeMarginDifference) :
    (calculateVerticalLayout tm s (dp :: rest) title arrows aw).1 = 0 := by
  rw [vertRun_n]
  set ctx := mkVertCtx tm s (dp :: rest) aw with hctx
  have hff : 0 ≤ ctx.fontFactor := mkVertCtx_fontFactor_nonneg tm s (dp :: rest) aw
  have hmd : ctx.marginDifference = s.legendFontSizeMarginDifference := rfl
  have hvlh : ctx.verticalLegendHeight = 20 + ctx.fontFactor := rfl
  have hph : ctx.parentHeight = s.parentViewport.height := rfl
  have hsp : (15 : ℚ) ≤ (vertTitleInit title (15 + ctx.fontFactor * (13 / 10))).2.1 := by
    match title with
    | none =>
      show (15:ℚ) ≤ 15 + ctx.fontFactor * (13 / 10)
      linarith
    | some x =>
      show (15:ℚ) ≤ (15 + ctx.fontFactor * (13 / 10)) + (15 + ctx.fontFactor * (13 / 10))
      linarith
  set total0 := if s.legendDataStartIndex > 0 then
      (vertTitleInit title (15 + ctx.fontFactor * (13 / 10))).2.1 + LegendArrowOffset
    else (vertTitleInit title (15 + ctx.fontFactor * (13 / 10))).2.1 with htot0
  have htot0ge : (15 : ℚ) ≤ total0 := by
    rw [htot0, LegendArrowOffset]
    split_ifs <;> linarith
  have hout : (vertProcessDP tm ctx total0 dp).2.1 > ctx.parentHeight := by
    rw [vertProcessDP_total, hph, hH, hvlh, hmd]
    split_ifs <;> linarith
  show (vertRunLoop tm s (dp :: rest) title aw).2.2.2.getD (dp :: rest).length = 0
  rw [vertRunLoop]
  rw [← hctx, ← htot0]
  rw [vertLoop]
  dsimp only
  rw [if_pos hout]
  rfl

/-- C1: for every data-point list, parent viewport, orientation and
stored pagination index, the `numberOfItems` computed by
`calculateLayout` (via the horizontal or vertical pass) is at most the
number of points in the current pagination window (the points from the
clamped start index onward), it is 0 when the data-point list is empty,
and it is 0 when the parent viewport is zero-sized (zero width for the
horizontal orientations, zero height otherwise).  The hypotheses are the
external text-metric contract, a nonnegative font size, and the widget
invariant that the stored data is the data being laid out. -/
theorem layout_numberOfItems_bound (tm : TextMeasure) (hc : TMContract tm)
    (s : LegendState) (data : LegendData) (autoWidth : Bool)
    (hsd : s.data = data) (hfs : 0 ≤ data.fontSize)
    (r : LegendState × LegendLayout × List LegendDataPoint)
    (h : calculateLayout tm s data autoWidth = some r) :
    r.2.1.numberOfItems ≤
      (data.dataPoints.drop
        (normalizeIdx s.legendDataStartIndex data.dataPoints.length).toNat).length ∧
    (data.dataPoints = [] → r.2.1.numberOfItems = 0) ∧
    (isTopOrBottom s.orientation = true → s.parentViewport.width = 0 →
      r.2.1.numberOfItems = 0) ∧
    (isTopOrBottom s.orientation = false → s.parentViewport.height = 0 →
      r.2.1.numberOfItems = 0) := by
  by_cases hne : data.dataPoints = []
  · rw [calculateLayout, if_pos hne] at h
    rw [← Option.some.inj h]
    exact ⟨Nat.zero_le _, fun _ => rfl, fun _ _ => rfl, fun _ _ => rfl⟩
  · have hlen : 0 < data.dataPoints.length := List.length_pos.mpr hne
    have hnb := normalizePosition_clamps s.legendDataStartIndex data.dataPoints.length
    have hidxlt : normalizeIdx s.legendDataStartIndex data.dataPoints.length <
        (data.dataPoints.length : ℤ) := by omega
    rw [calculateLayout, if_neg hne] at h
    set s2 := layoutSetupState s data.dataPoints.length with hs2
    have hwin : layoutWindow s2.legendDataStartIndex data.dataPoints =
        data.dataPoints.drop s2.legendDataStartIndex.toNat := by
      rw [layoutWindow, if_pos]
      rw [hs2, layoutSetupState_legendDataStartIndex]
      exact hidxlt
    have hwlen : (layoutWindow s2.legendDataStartIndex data.dataPoints).length =
        data.dataPoints.length - s2.legendDataStartIndex.toNat := by
      rw [hwin, List.length_drop]
    have hidx2 : s2.legendDataStartIndex =
        normalizeIdx s.legendDataStartIndex data.dataPoints.length := by
      rw [hs2, layoutSetupState_legendDataStartIndex]
    have hwpos : 0 < (layoutWindow s2.legendDataStartIndex data.dataPoints).length := by
      rw [hwlen, hidx2]
      omega
    obtain ⟨dp, rest, hcons⟩ :=
      List.exists_cons_of_ne_nil (List.length_pos.mp hwpos)
    have hbound : ∀ n : ℕ,
        n ≤ (layoutWindow s2.legendDataStartIndex data.dataPoints).length →
        n ≤ (data.dataPoints.drop
          (normalizeIdx s.legendDataStartIndex data.dataPoints.length).toNat).length := by
      intro n hn
      rw [hwin, hidx2] at hn
      exact hn
    by_cases hor : isTopOrBottom s.orientation
    · rw [if_pos (by simpa [hs2] using hor)] at h
      rw [calculateHorizontalLayout] at h
      by_cases hg : s2.showPrimary = true ∧
          horizMeasureDeref (layoutWindow s2.legendDataStartIndex data.dataPoints) = none
      · rw [if_pos (by exact_mod_cast hg)] at h
        simp at h
      · rw [if_neg (by exact_mod_cast hg)] at h
        simp only [Option.map_some'] at h
        rw [← Option.some.inj h]
        dsimp only
        refine ⟨?_, fun hx => absurd hx hne, fun _ hw0 => ?_, fun hx _ => absurd hor (by simp [hx])⟩
        · rw [horizRun_n]
          cases hbrk : (horizLoop tm
              (mkHorizCtx tm s2 (layoutWindow s2.legendDataStartIndex data.dataPoints)
                (calculateTitleLayout tm s2 data.title)).1
              (mkHorizCtx tm s2 (layoutWindow s2.legendDataStartIndex data.dataPoints)
                (calculateTitleLayout tm s2 data.title)).2.2 0
              (layoutWindow s2.legendDataStartIndex data.dataPoints)).2.2 with
          | none =>
            rw [Option.getD_none]
            exact hbound _ (le_refl _)
          | some j =>
            rw [Option.getD_some]
            have := (horizLoop_brk_bound tm _ _ _ _ _ hbrk).2
            exact hbound _ (by omega)
        · rw [hcons]
          apply horizRun_zero tm hc s2 dp rest _ _ hw0
          intro x hx
          exact titleWidth_at_zero tm hc s2 data.title x hw0
            (by simpa [hs2] using hor) rfl hx
    · rw [if_neg (by simpa [hs2] using hor)] at h
      rw [← Option.some.inj h]
      dsimp only
      refine ⟨?_, fun hx => absurd hx hne, fun hx => absurd hx (by simpa using hor),
        fun _ hh0 => ?_⟩
      · rw [vertRun_n]
        cases hbrk : (vertRunLoop tm s2
            (layoutWindow s2.legendDataStartIndex data.dataPoints)
            (calculateTitleLayout tm s2 data.title) autoWidth).2.2.2 with
        | none =>
          rw [Option.getD_none]
          exact hbound _ (le_refl _)
        | some j =>
          rw [Option.getD_some]
          have := (vertLoop_brk_bound tm _ _ _ _ _ _ hbrk).2
          exact hbound _ (by omega)
      · rw [hcons]
        apply vertRun_zero tm s2 dp rest _ _ autoWidth hh0
        have : s2.legendFontSizeMarginDifference =
            fromPointToPixel data.fontSize - DefaultTextMargin := by
          rw [hs2]
          show fromPointToPixel s.data.fontSize - DefaultTextMargin = _
          rw [hsd]
        rw [this, fromPointToPixel, DefaultTextMargin, fromPointToPixel,
          DefaultFontSizeInPt]
        linarith

/-- Concrete instantiation of C1: a zero-width horizontal parent viewport
fits zero items. -/
theorem layout_numberOfItems_bound_witness :
    ∃ r : LegendState × LegendLayout × List LegendDataPoint,
      calculateLayout simpleTM stateZeroW cexData true = some r ∧
      r.2.1.numberOfItems = 0 :=
  ⟨_, rfl, (layout_numberOfItems_bound simpleTM simpleTM_contract stateZeroW cexData
    true rfl (by norm_num [cexData]) _ rfl).2.2.1 rfl rfl⟩

lemma itemMeasuredWidth_positions (tm : TextMeasure) (sp : Bool) (fs : ℚ)
    (dp : LegendDataPoint) (g t : Option Point) :
    itemMeasuredWidth tm sp fs { dp with glyphPosition := g, textPosition := t } =
      itemMeasuredWidth tm sp fs dp := rfl

lemma itemMeasuredWidth_ge_label (tm : TextMeasure) (sp : Bool) (fs : ℚ)
    (dp : LegendDataPoint) :
    tm.measureWidth (getTextProperties false (some dp.label) fs) + 15 ≤
      itemMeasuredWidth tm sp fs dp := by
  rw [itemMeasuredWidth]
  split_ifs <;> linarith

lemma horizProcessDP_label (tm : TextMeasure) (ctx : HorizCtx) (occ : ℚ)
    (dp : LegendDataPoint) :
    (horizProcessDP tm ctx occ dp).1.label =
      if itemMeasuredWidth tm ctx.showPrimary ctx.fontSize dp < ctx.maxTextLength then
        dp.label
      else tm.tailor (getTextProperties false (some dp.label) ctx.fontSize)
        ctx.maxTextLength := by
  rw [horizProcessDP]
  dsimp only
  rw [itemMeasuredWidth_positions]
  split_ifs with h1 h2 <;> rfl

lemma vertProcessDP_label (tm : TextMeasure) (ctx : VertCtx) (total : ℚ)
    (dp : LegendDataPoint) :
    (vertProcessDP tm ctx total dp).1.label =
      if itemMeasuredWidth tm ctx.showPrimary ctx.fontSize dp >
          ctx.maxHorizontalSpaceAvaliable then
        tm.tailor (getTextProperties false (some dp.label) ctx.fontSize)
          ctx.maxHorizontalSpaceAvaliable
      else dp.label := by
  rw [vertProcessDP]
  dsimp only
  rw [itemMeasuredWidth_positions]
  split_ifs with h1 h2 <;> rfl

lemma horizLoop_get_label (tm : TextMeasure) (ctx : HorizCtx) :
    ∀ (pts : List LegendDataPoint) (occ : ℚ) (itr i : ℕ) (dp : LegendDataPoint),
      pts.get? i = some dp →
      (∀ j, (horizLoop tm ctx occ itr pts).2.2 = some j → itr + i < j) →
      ∃ dp', (horizLoop tm ctx occ itr pts).1.get? i = some dp' ∧
        dp'.label =
          (if itemMeasuredWidth tm ctx.showPrimary ctx.fontSize dp <
              ctx.maxTextLength then dp.label
           else tm.tailor (getTextProperties false (some dp.label) ctx.fontSize)
             ctx.maxTextLength) := by
  intro pts
  induction pts with
  | nil => intro occ itr i dp hget _; simp at hget
  | cons dp0 rest ih =>
    intro occ itr i dp hget hbrk
    rw [horizLoop] at hbrk ⊢
    dsimp only at hbrk ⊢
    by_cases hif : occ + (horizProcessDP tm ctx occ dp0).2 > ctx.parentWidth
    · rw [if_pos hif] at hbrk
      exact absurd (hbrk itr rfl) (by omega)
    · rw [if_neg hif] at hbrk ⊢
      dsimp only at hbrk ⊢
      match i, hget with
      | 0, hget =>
        refine ⟨_, rfl, ?_⟩
        have : dp0 = dp := by simpa using hget
        rw [horizProcessDP_label, this]
      | Nat.succ i, hget =>
        have hget' : rest.get? i = some dp := by simpa using hget
        have hbrk' : ∀ j,
            (horizLoop tm ctx (occ + (horizProcessDP tm ctx occ dp0).2) (itr + 1)
              rest).2.2 = some j → (itr + 1) + i < j := by
          intro j hj
          have := hbrk j hj
          omega
        obtain ⟨dp', hdp', hlab⟩ := ih (occ + (horizProcessDP tm ctx occ dp0).2)
          (itr + 1) i dp hget' hbrk'
        exact ⟨dp', by simpa using hdp', hlab⟩

lemma vertLoop_get_label (tm : TextMeasure) (ctx : VertCtx) :
    ∀ (pts : List LegendDataPoint) (total maxUsed : ℚ) (itr i : ℕ)
      (dp : LegendDataPoint),
      pts.get? i = some dp →
      (∀ j, (vertLoop tm ctx total maxUsed itr pts).2.2.2 = some j → itr + i < j) →
      ∃ dp', (vertLoop tm ctx total maxUsed itr pts).1.get? i = some dp' ∧
        dp'.label =
          (if itemMeasuredWidth tm ctx.showPrimary ctx.fontSize dp >
              ctx.maxHorizontalSpaceAvaliable then
            tm.tailor (getTextProperties false (some dp.label) ctx.fontSize)
              ctx.maxHorizontalSpaceAvaliable
           else dp.label) := by
  intro pts
  induction pts with
  | nil => intro total maxUsed itr i dp hget _; simp at hget
  | cons dp0 rest ih =>
    intro total maxUsed itr i dp hget hbrk
    rw [vertLoop] at hbrk ⊢
    dsimp only at hbrk ⊢
    by_cases hif : (vertProcessDP tm ctx total dp0).2.1 > ctx.parentHeight
    · rw [if_pos hif] at hbrk
      exact absurd (hbrk itr rfl) (by omega)
    · rw [if_neg hif] at hbrk ⊢
      dsimp only at hbrk ⊢
      match i, hget with
      | 0, hget =>
        refine ⟨_, rfl, ?_⟩
        have : dp0 = dp := by simpa using hget
        rw [vertProcessDP_label, this]
      | Nat.succ i, hget =>
        have hget' : rest.get? i = some dp := by simpa using hget
        have hbrk' : ∀ j,
            (vertLoop tm ctx (vertProcessDP tm ctx total dp0).2.1
              (if (vertProcessDP tm ctx total dp0).2.2 > maxUsed
               then (vertProcessDP tm ctx total dp0).2.2 else maxUsed)
              (itr + 1) rest).2.2.2 = some j → (itr + 1) + i < j := by
          intro j hj
          have := hbrk j hj
          omega
        obtain ⟨dp', hdp', hlab⟩ := ih (vertProcessDP tm ctx total dp0).2.1
          (if (vertProcessDP tm ctx total dp0).2.2 > maxUsed
           then (vertProcessDP tm ctx total dp0).2.2 else maxUsed)
          (itr + 1) i dp hget' hbrk'
        exact ⟨dp', by simpa using hdp', hlab⟩

lemma mkHorizCtx_fontSize (tm : TextMeasure) (s : LegendState)
    (pts : List LegendDataPoint) (t : Option TitleLayout) :
    (mkHorizCtx tm s pts t).1.fontSize = s.data.fontSize := rfl

lemma mkVertCtx_fontSize (tm : TextMeasure) (s : LegendState)
    (pts : List LegendDataPoint) (aw : Bool) :
    (mkVertCtx tm s pts aw).fontSize = s.data.fontSize := rfl

lemma horizRun_points (tm : TextMeasure) (s : LegendState)
    (pts : List LegendDataPoint) (t : Option TitleLayout)
    (a : List NavigationArrow) :
    (calculateHorizontalLayoutRun tm s pts t a).2.2.1 =
      (horizLoop tm (mkHorizCtx tm s pts t).1 (mkHorizCtx tm s pts t).2.2 0 pts).1 :=
  rfl

lemma vertRun_points (tm : TextMeasure) (s : LegendState)
    (pts : List LegendDataPoint) (t : Option TitleLayout)
    (a : List NavigationArrow) (aw : Bool) :
    (calculateVerticalLayout tm s pts t a aw).2.2.1 =
      (vertRunLoop tm s pts t aw).1 := rfl

/-- C3: in both layout passes, a data point of the pagination window that
is laid out (its index is below the returned `numberOfItems`) keeps its
label exactly when the label's measured width fits the pass's per-item
budget (horizontal: the even-split `maxTextLength`, floored and clamped
to at least 60px; vertical: `maxHorizontalSpaceAvaliable`); when the
measured width exceeds the budget the label is replaced by its
ellipsis-truncated form, whose measured width is at most the budget (for
the vertical pass under the proviso that the budget is nonnegative — the
collaborator contract only covers nonnegative pixel budgets, and the
spec flags the negative-budget case as a latent edge case). -/
theorem truncation_policy (tm : TextMeasure) (hc : TMContract tm) (s : LegendState)
    (window : List LegendDataPoint) (title : Option TitleLayout)
    (arrows : List NavigationArrow) (autoWidth : Bool) (i : ℕ)
    (dp : LegendDataPoint) (hget : window.get? i = some dp) :
    (∀ res : ℕ × LegendState × List LegendDataPoint × Option TitleLayout ×
        List NavigationArrow,
      calculateHorizontalLayout tm s window title arrows = some res →
      i < res.1 →
      ∃ dp', res.2.2.1.get? i = some dp' ∧
        (tm.measureWidth (getTextProperties false (some dp.label) s.data.fontSize) ≤
            (mkHorizCtx tm s window title).1.maxTextLength →
          dp'.label = dp.label) ∧
        ((mkHorizCtx tm s window title).1.maxTextLength <
            tm.measureWidth (getTextProperties false (some dp.label) s.data.fontSize) →
          dp'.label =
            tm.tailor (getTextProperties false (some dp.label) s.data.fontSize)
              (mkHorizCtx tm s window title).1.maxTextLength ∧
          tm.measureWidth (getTextProperties false (some dp'.label) s.data.fontSize) ≤
            (mkHorizCtx tm s window title).1.maxTextLength)) ∧
    (∀ res : ℕ × LegendState × List LegendDataPoint × Option TitleLayout ×
        List NavigationArrow,
      calculateVerticalLayout tm s window title arrows autoWidth = res →
      i < res.1 →
      ∃ dp', res.2.2.1.get? i = some dp' ∧
        (tm.measureWidth (getTextProperties false (some dp.label) s.data.fontSize) ≤
            (mkVertCtx tm s window autoWidth).maxHorizontalSpaceAvaliable →
          dp'.label = dp.label) ∧
        ((mkVertCtx tm s window autoWidth).maxHorizontalSpaceAvaliable <
            tm.measureWidth (getTextProperties false (some dp.label) s.data.fontSize) →
          dp'.label =
            tm.tailor (getTextProperties false (some dp.label) s.data.fontSize)
              (mkVertCtx tm s window autoWidth).maxHorizontalSpaceAvaliable ∧
          (0 ≤ (mkVertCtx tm s window autoWidth).maxHorizontalSpaceAvaliable →
            tm.measureWidth (getTextProperties false (some dp'.label) s.data.fontSize) ≤
              (mkVertCtx tm s window autoWidth).maxHorizontalSpaceAvaliable))) := by
  constructor
  · intro res hres hin
    rw [calculateHorizontalLayout] at hres
    by_cases hg : s.showPrimary = true ∧ horizMeasureDeref window = none
    · rw [if_pos (by exact_mod_cast hg)] at hres
      simp at hres
    · rw [if_neg (by exact_mod_cast hg)] at hres
      have hre : res = calculateHorizontalLayoutRun tm s window title arrows :=
        (Option.some.inj hres).symm
      subst hre
      rw [horizRun_n] at hin
      have hbrk : ∀ j, (horizLoop tm (mkHorizCtx tm s window title).1
          (mkHorizCtx tm s window title).2.2 0 window).2.2 = some j → 0 + i < j := by
        intro j hj
        rw [hj, Option.getD_some] at hin
        omega
      obtain ⟨dp', hdp', hlab⟩ := horizLoop_get_label tm (mkHorizCtx tm s window title).1
        window (mkHorizCtx tm s window title).2.2 0 i dp hget hbrk
      rw [mkHorizCtx_fontSize] at hlab
      refine ⟨dp', by rw [horizRun_points]; exact hdp', ?_, ?_⟩
      · intro hle
        rw [hlab]
        split_ifs with hw
        · rfl
        · rw [hc.tailor_id _ _ hle]
          rfl
      · intro hgt
        have hws := itemMeasuredWidth_ge_label tm
          (mkHorizCtx tm s window title).1.showPrimary s.data.fontSize dp
        have hnw : ¬(itemMeasuredWidth tm (mkHorizCtx tm s window title).1.showPrimary
            s.data.fontSize dp < (mkHorizCtx tm s window title).1.maxTextLength) := by
          push_neg
          linarith
        rw [hlab, if_neg hnw]
        refine ⟨rfl, ?_⟩
        have h60 := mkHorizCtx_maxTextLength_ge tm s window title
        rw [MaxTextLength] at h60
        exact hc.tailor_fits (getTextProperties false (some dp.label) s.data.fontSize)
          (mkHorizCtx tm s window title).1.maxTextLength (by linarith)
  · intro res hres hin
    have hre : res = calculateVerticalLayout tm s window title arrows autoWidth :=
      hres.symm
    subst hre
    rw [vertRun_n] at hin
    have hbrk : ∀ j, (vertRunLoop tm s window title autoWidth).2.2.2 = some j →
        0 + i < j := by
      intro j hj
      rw [hj, Option.getD_some] at hin
      omega
    rw [vertRunLoop] at hbrk
    obtain ⟨dp', hdp', hlab⟩ := vertLoop_get_label tm (mkVertCtx tm s window autoWidth)
      window
      (if s.legendDataStartIndex > 0 then
        (vertTitleInit title
          (15 + (mkVertCtx tm s window autoWidth).fontFactor * (13 / 10))).2.1 +
          LegendArrowOffset
       else (vertTitleInit title
          (15 + (mkVertCtx tm s window autoWidth).fontFactor * (13 / 10))).2.1)
      (vertTitleInit title
        (15 + (mkVertCtx tm s window autoWidth).fontFactor * (13 / 10))).2.2
      0 i dp hget hbrk
    rw [mkVertCtx_fontSize] at hlab
    refine ⟨dp', by rw [vertRun_points, vertRunLoop]; exact hdp', ?_, ?_⟩
    · intro hle
      rw [hlab]
      split_ifs with hw
      · rw [hc.tailor_id _ _ hle]
        rfl
      · rfl
    · intro hgt
      have hws := itemMeasuredWidth_ge_label tm
        (mkVertCtx tm s window autoWidth).showPrimary s.data.fontSize dp
      have hw : itemMeasuredWidth tm (mkVertCtx tm s window autoWidth).showPrimary
          s.data.fontSize dp >
          (mkVertCtx tm s window autoWidth).maxHorizontalSpaceAvaliable := by
        linarith
      rw [← mkVertCtx_fontSize tm s window autoWidth] at hw
      rw [mkVertCtx_fontSize] at hw
      rw [hlab, if_pos hw]
      refine ⟨rfl, fun hpos => ?_⟩
      exact hc.tailor_fits (getTextProperties false (some dp.label) s.data.fontSize)
        (mkVertCtx tm s window autoWidth).maxHorizontalSpaceAvaliable hpos

/-- Concrete instantiation of C3: the wide fifth label of `cexData` gets
ellipsis-truncated to the 60px budget. -/
theorem truncation_policy_witness :
    ∃ dp', (calculateHorizontalLayoutRun simpleTM stateC3 cexData.dataPoints
        none []).2.2.1.get? 4 = some dp' ∧
      dp'.label = simpleTM.tailor
        (getTextProperties false (some (mkDP "eeeeeeeeeeee").label)
          stateC3.data.fontSize)
        (mkHorizCtx simpleTM stateC3 cexData.dataPoints none).1.maxTextLength ∧
      simpleTM.measureWidth (getTextProperties false (some dp'.label)
        stateC3.data.fontSize) ≤
        (mkHorizCtx simpleTM stateC3 cexData.dataPoints none).1.maxTextLength := by
  obtain ⟨dp', h1, h2, h3⟩ := (truncation_policy simpleTM simpleTM_contract stateC3
    cexData.dataPoints none [] true 4 (mkDP "eeeeeeeeeeee") rfl).1
    (calculateHorizontalLayoutRun simpleTM stateC3 cexData.dataPoints none [])
    (by with_unfolding_all rfl) (by with_unfolding_all decide)
  obtain ⟨h4, h5⟩ := h3 (by with_unfolding_all decide)
  exact ⟨dp', h1, h4, h5⟩


/-! ## C4 — Increase/Decrease round trip -/

lemma normalizeIdx_zero (len : ℕ) : normalizeIdx 0 len = 0 := by
  simp only [normalizeIdx]
  split_ifs <;> omega

lemma updateNav_startIndex (s : LegendState) (arr : List NavigationArrow)
    (rem vis : ℕ) :
    (updateNavigationArrowLayout s arr rem vis).1.legendDataStartIndex =
      s.legendDataStartIndex := by
  simp only [updateNavigationArrowLayout]
  split_ifs <;> rfl

lemma changeOrientation_startIndex (s : LegendState) (o : LegendPosition) :
    (changeOrientation s o).legendDataStartIndex = s.legendDataStartIndex := by
  unfold changeOrientation
  split_ifs <;> rfl

lemma calculateViewport_startIndex (s : LegendState) :
    (calculateViewport s).legendDataStartIndex = s.legendDataStartIndex := by
  unfold calculateViewport
  split <;> rfl

lemma updateLayout_startIndex (s : LegendState) :
    (updateLayout s).legendDataStartIndex = s.legendDataStartIndex := rfl

lemma horizRun_startIndex (tm : TextMeasure) (s : LegendState)
    (pts : List LegendDataPoint) (t : Option TitleLayout)
    (a : List NavigationArrow) :
    (calculateHorizontalLayoutRun tm s pts t a).2.1.legendDataStartIndex =
      s.legendDataStartIndex := by
  rw [horizRun_state, updateNav_startIndex]

lemma vertLayout_startIndex (tm : TextMeasure) (s : LegendState)
    (pts : List LegendDataPoint) (t : Option TitleLayout)
    (a : List NavigationArrow) (aw : Bool) :
    (calculateVerticalLayout tm s pts t a aw).2.1.legendDataStartIndex =
      s.legendDataStartIndex := by
  rw [vertRun_state, updateNav_startIndex]
  exact (vertRunState_proj tm s pts t aw).1

lemma calculateLayout_startIndex (tm : TextMeasure) (s : LegendState)
    (data : LegendData) (aw : Bool)
    (res : LegendState × LegendLayout × List LegendDataPoint)
    (h0 : s.legendDataStartIndex = 0)
    (hres : calculateLayout tm s data aw = some res) :
    res.1.legendDataStartIndex = 0 := by
  simp only [calculateLayout] at hres
  by_cases hemp : data.dataPoints = []
  · rw [if_pos hemp] at hres
    cases hres
    exact h0
  · rw [if_neg hemp] at hres
    by_cases htb : isTopOrBottom (layoutSetupState s data.dataPoints.length).orientation = true
    · rw [if_pos htb] at hres
      obtain ⟨r, hr, hfr⟩ := Option.map_eq_some'.mp hres
      simp only [calculateHorizontalLayout] at hr
      by_cases hg : (layoutSetupState s data.dataPoints.length).showPrimary = true ∧
          horizMeasureDeref (layoutWindow
            (layoutSetupState s data.dataPoints.length).legendDataStartIndex
            data.dataPoints) = none
      · rw [if_pos (by exact_mod_cast hg)] at hr
        cases hr
      · rw [if_neg (by exact_mod_cast hg)] at hr
        rw [← hfr, ← Option.some.inj hr]
        rw [horizRun_startIndex, layoutSetupState_legendDataStartIndex, h0,
          normalizeIdx_zero]
    · rw [if_neg htb] at hres
      rw [← Option.some.inj hres]
      rw [vertLayout_startIndex, layoutSetupState_legendDataStartIndex, h0,
        normalizeIdx_zero]

lemma drawLegendInternal_startIndex (tm : TextMeasure) (s : LegendState)
    (data : LegendData) (vp : Viewport) (aw : Bool)
    (res : LegendState × LegendLayout × List LegendDataPoint)
    (h0 : s.legendDataStartIndex = 0)
    (hres : drawLegendInternal tm s data vp aw = some res) :
    res.1.legendDataStartIndex = 0 := by
  simp only [drawLegendInternal] at hres
  split at hres
  · cases hres
  · rename_i s5 layout pts hcl
    cases hres
    rw [updateLayout_startIndex]
    show s5.legendDataStartIndex = 0
    refine calculateLayout_startIndex tm _ _ aw (s5, layout, pts) ?_ hcl
    rw [calculateViewport_startIndex]
    dsimp only
    split_ifs
    · rw [changeOrientation_startIndex]
      exact h0
    · exact h0

/-- C4 (amended): a Decrease activation returns the start index to 0
provided the state it acts on — here the state left by an Increase
activation from a drawn legend — stores an `arrowPosWindow` equal to its
current start index.  The original claim omits that proviso; the
re-layout triggered by the Increase overwrites `arrowPosWindow` with the
size of the new (possibly smaller) window, so the Decrease can subtract
less than the Increase added (see the counterexample). -/
theorem increase_decrease_roundtrip (tm : TextMeasure) (s0 : LegendState)
    (r1 res : LegendState × LegendLayout × List LegendDataPoint)
    (hinc : clickArrow tm s0 .Increase = some r1)
    (hw : r1.1.legendDataStartIndex = (r1.1.arrowPosWindow : ℤ))
    (hdec : clickArrow tm r1.1 .Decrease = some res) :
    res.1.legendDataStartIndex = 0 := by
  simp only [clickArrow] at hdec
  exact drawLegendInternal_startIndex _ _ _ _ _ _ (by simp [hw]) hdec

/-- C4 (counterexample): over `cexData` in a 190px viewport, a legend
drawn at start index 0 shows 3 items and stores window size 3; one
Increase activation advances to index 3, where only 2 items fit, so the
stored window size becomes 2; the following Decrease subtracts 2 and
lands on index 1, not 0 — the advertised Increase/Decrease round trip
does not return to the start. -/
theorem increase_decrease_counterexample :
    drawLegend simpleTM state0 cexData ⟨190, 24⟩ = some c4Draw ∧
    c4Draw.1.legendDataStartIndex = 0 ∧
    clickArrow simpleTM c4Draw.1 .Increase = some c4Inc ∧
    c4Inc.1.legendDataStartIndex = 3 ∧ c4Inc.1.arrowPosWindow = 2 ∧
    clickArrow simpleTM c4Inc.1 .Decrease = some c4Dec ∧
    c4Dec.1.legendDataStartIndex = 1 ∧ c4Dec.1.legendDataStartIndex ≠ 0 := by
  refine ⟨?_, ?_, ?_, ?_, ?_, ?_, ?_, ?_⟩
  · with_unfolding_all rfl
  · with_unfolding_all rfl
  · with_unfolding_all rfl
  · with_unfolding_all rfl
  · with_unfolding_all rfl
  · with_unfolding_all rfl
  · with_unfolding_all rfl
  · with_unfolding_all decide

/-- Concrete instantiation of the amended C4: over `witData` the page
after the Increase is the last one, the arrow update rolls the stored
window size back to 3 — equal to the advanced start index — and the
Decrease indeed returns to 0. -/
theorem increase_decrease_roundtrip_witness :
    ∃ res : LegendState × LegendLayout × List LegendDataPoint,
      stateW4.legendDataStartIndex = 0 ∧
      clickArrow simpleTM stateW4 .Increase = some w4Inc ∧
      w4Inc.1.legendDataStartIndex = (w4Inc.1.arrowPosWindow : ℤ) ∧
      clickArrow simpleTM w4Inc.1 .Decrease = some res ∧
      res.1.legendDataStartIndex = 0 := by
  have h1 : clickArrow simpleTM stateW4 .Increase = some w4Inc := by
    with_unfolding_all rfl
  have hw : w4Inc.1.legendDataStartIndex = (w4Inc.1.arrowPosWindow : ℤ) := by
    with_unfolding_all rfl
  obtain ⟨res, h3⟩ : ∃ res, clickArrow simpleTM w4Inc.1 .Decrease = some res :=
    ⟨_, by with_unfolding_all rfl⟩
  exact ⟨res, by with_unfolding_all rfl, h1, hw, h3,
    increase_decrease_roundtrip simpleTM stateW4 w4Inc res h1 hw h3⟩


/-! ## C7 — idempotence of the layout computation -/

lemma normalizeIdx_idem (i : ℤ) (len : ℕ) :
    normalizeIdx (normalizeIdx i len) len = normalizeIdx i len := by
  simp only [normalizeIdx]
  split_ifs <;> omega

lemma ite_absorb {α : Type} (C : Prop) [Decidable C] (a b : α) :
    (if C then (if C then a else b) else b) = if C then a else b := by
  split_ifs <;> rfl

lemma updateNav_fst (s : LegendState) (arr : List NavigationArrow) (rem vis : ℕ) :
    (updateNavigationArrowLayout s arr rem vis).1 =
      { s with arrowPosWindow :=
          if (if s.legendDataStartIndex = 0 then arr.drop 1 else arr).length > 0 ∧ vis = rem
          then s.arrowPosWindow else vis } := by
  simp only [updateNavigationArrowLayout]
  split_ifs <;> rfl

lemma updateNav_snd (s : LegendState) (arr : List NavigationArrow) (rem vis : ℕ) :
    (updateNavigationArrowLayout s arr rem vis).2 =
      if (if s.legendDataStartIndex = 0 then arr.drop 1 else arr).length > 0 ∧ vis = rem
      then (if s.legendDataStartIndex = 0 then arr.drop 1 else arr).dropLast
      else (if s.legendDataStartIndex = 0 then arr.drop 1 else arr) := by
  simp only [updateNavigationArrowLayout]
  split_ifs <;> rfl

lemma changeOrientation_none (s : LegendState) :
    changeOrientation s .None = { s with orientation := .None } := rfl

lemma vertWidthUpdate_push (s : LegendState) (a b c : ℚ) :
    vertWidthUpdate s a b c true =
      { s with
        lastCalculatedWidth := if c < a then jsCeil (c + b + LegendEdgeMariginWidth) else jsCeil (s.parentViewport.width * LegendMaxWidthFactor),
        viewport := { s.viewport with width := if c < a then jsCeil (c + b + LegendEdgeMariginWidth) else jsCeil (s.parentViewport.width * LegendMaxWidthFactor) } } := by
  simp only [vertWidthUpdate]
  split_ifs <;> rfl

lemma mkHorizCtx_scrub (tm : TextMeasure) (o : LegendPosition) (v pv : Viewport)
    (i : ℤ) (w : ℕ) (d : LegendData) (b1 b2 : Bool) (c1 c2 c3 m1 m2 s1 s2 : ℚ)
    (pts : List LegendDataPoint) (T : Option TitleLayout) :
    mkHorizCtx tm ⟨o, v, pv, i, w, d, b1, b2, c1, c2, c3, m1, m2, s1, s2⟩ pts T =
      mkHorizCtx tm ⟨.Top, ⟨0, 0⟩, pv, i, 0, d, false, b2, 0, 0, 0, m1, 0, 0, 0⟩ pts T := rfl

lemma mkVertCtx_scrub (tm : TextMeasure) (o : LegendPosition) (v pv : Viewport)
    (i : ℤ) (w : ℕ) (d : LegendData) (b1 b2 : Bool) (c1 c2 c3 m1 m2 s1 s2 : ℚ)
    (pts : List LegendDataPoint) :
    mkVertCtx tm ⟨o, v, pv, i, w, d, b1, b2, c1, c2, c3, m1, m2, s1, s2⟩ pts true =
      mkVertCtx tm ⟨.Top, ⟨0, 0⟩, pv, i, 0, d, false, b2, 0, 0, 0, m1, 0, 0, 0⟩ pts true := rfl

set_option maxHeartbeats 3200000 in
lemma drawInternal_idem_horiz (tm : TextMeasure) (o : LegendPosition)
    (vw pvw : Viewport) (idx : ℤ) (apw : ℕ)
    (dat : LegendData) (isc shp : Bool) (lcw vlw vlh mdf mvl sw sh : ℚ)
    (D : LegendData) (vp : Viewport)
    (r : LegendState × LegendLayout × List LegendDataPoint)
    (hTB : isTopOrBottom o = true) (hne : ¬(D.dataPoints = []))
    (h : drawLegendInternal tm ⟨o, vw, pvw, idx, apw, dat, isc, shp, lcw, vlw, vlh, mdf, mvl, sw, sh⟩ D vp true = some r) :
    drawLegendInternal tm r.1 D vp true = some r := by
  cases o <;>
    first
      | exact absurd hTB (by decide)
      | (simp only [drawLegendInternal, calculateLayout, calculateHorizontalLayout,
           calculateHorizontalLayoutRun, updateLayout, calculateViewport, layoutSetupState,
           layoutWindow, changeOrientation, getOrientation,
           calculateTitleLayout, titleMaxMeasureLength, getTextProperties,
           calculateHorizontalNavigationArrowsLayout, updateNav_fst, updateNav_snd,
           mkHorizCtx_scrub, ite_absorb,
           Option.map, isTopOrBottom, reduceIte, reduceCtorEq, if_neg hne,
           normalizeIdx_idem] at h
         by_cases hG : (decide ¬D.primaryType = some "None") = true ∧
             horizMeasureDeref
               (if normalizeIdx idx D.dataPoints.length < (D.dataPoints.length : ℤ) then
                 List.drop (normalizeIdx idx D.dataPoints.length).toNat D.dataPoints
               else D.dataPoints) = none <;>
           first
             | (rw [if_pos hG] at h
                exact absurd h (by simp))
             | (rw [if_neg hG] at h
                obtain rfl : r = _ := (Option.some.inj h).symm
                simp only [drawLegendInternal, calculateLayout, calculateHorizontalLayout,
                  calculateHorizontalLayoutRun, updateLayout, calculateViewport, layoutSetupState,
                  layoutWindow, changeOrientation, getOrientation,
                  calculateTitleLayout, titleMaxMeasureLength, getTextProperties,
                  calculateHorizontalNavigationArrowsLayout, updateNav_fst, updateNav_snd,
                  mkHorizCtx_scrub, ite_absorb,
                  Option.map, isTopOrBottom, reduceIte, reduceCtorEq, if_neg hne,
                  normalizeIdx_idem]
                rw [if_neg hG]
                simp only [Option.some.injEq, Prod.mk.injEq, LegendState.mk.injEq, true_and,
                  and_true, reduceCtorEq, reduceIte]))

set_option maxHeartbeats 3200000 in
lemma drawInternal_idem_vert (tm : TextMeasure) (o : LegendPosition)
    (vw pvw : Viewport) (idx : ℤ) (apw : ℕ)
    (dat : LegendData) (isc shp : Bool) (lcw vlw vlh mdf mvl sw sh : ℚ)
    (D : LegendData) (vp : Viewport)
    (r : LegendState × LegendLayout × List LegendDataPoint)
    (hTB : ¬(isTopOrBottom o = true)) (hN : ¬(o = .None)) (hne : ¬(D.dataPoints = []))
    (h : drawLegendInternal tm ⟨o, vw, pvw, idx, apw, dat, isc, shp, lcw, vlw, vlh, mdf, mvl, sw, sh⟩ D vp true = some r) :
    drawLegendInternal tm r.1 D vp true = some r := by
  cases o <;>
    first
      | exact absurd rfl hTB
      | exact absurd rfl hN
      | (rcases hT : D.title with _ | ts
         case none =>
           simp only [drawLegendInternal, calculateLayout, calculateVerticalLayout,
             calculateTitleLayout, titleMaxMeasureLength, getTextProperties, vertTitleInit,
             vertWidthUpdate_push, updateLayout, calculateViewport, layoutSetupState,
             layoutWindow, changeOrientation, getOrientation,
             calculateVerticalNavigationArrowsLayout, updateNav_fst, updateNav_snd,
             mkVertCtx_scrub, ite_absorb, hT,
             Option.map, isTopOrBottom, reduceIte, reduceCtorEq, if_neg hne,
             normalizeIdx_idem] at h
           obtain rfl : r = _ := (Option.some.inj h).symm
           simp only [drawLegendInternal, calculateLayout, calculateVerticalLayout,
             calculateTitleLayout, titleMaxMeasureLength, getTextProperties, vertTitleInit,
             vertWidthUpdate_push, updateLayout, calculateViewport, layoutSetupState,
             layoutWindow, changeOrientation, getOrientation,
             calculateVerticalNavigationArrowsLayout, updateNav_fst, updateNav_snd,
             mkVertCtx_scrub, ite_absorb, hT,
             Option.map, isTopOrBottom, reduceIte, reduceCtorEq, if_neg hne,
             normalizeIdx_idem]
         case some =>
           by_cases hts : (ts != "") = true <;>
             first
               | (simp only [drawLegendInternal, calculateLayout, calculateVerticalLayout,
                    calculateTitleLayout, titleMaxMeasureLength, getTextProperties, vertTitleInit,
                    vertWidthUpdate_push, updateLayout, calculateViewport, layoutSetupState,
                    layoutWindow, changeOrientation, getOrientation,
                    calculateVerticalNavigationArrowsLayout, updateNav_fst, updateNav_snd,
                    mkVertCtx_scrub, ite_absorb, hT, hts,
                    Option.map, isTopOrBottom, reduceIte, reduceCtorEq, if_neg hne,
                    normalizeIdx_idem] at h
                  obtain rfl : r = _ := (Option.some.inj h).symm
                  simp only [drawLegendInternal, calculateLayout, calculateVerticalLayout,
                    calculateTitleLayout, titleMaxMeasureLength, getTextProperties, vertTitleInit,
                    vertWidthUpdate_push, updateLayout, calculateViewport, layoutSetupState,
                    layoutWindow, changeOrientation, getOrientation,
                    calculateVerticalNavigationArrowsLayout, updateNav_fst, updateNav_snd,
                    mkVertCtx_scrub, ite_absorb, hT, hts,
                    Option.map, isTopOrBottom, reduceIte, reduceCtorEq, if_neg hne,
                    normalizeIdx_idem])
               | (simp only [Bool.not_eq_true] at hts
                  simp only [drawLegendInternal, calculateLayout, calculateVerticalLayout,
                    calculateTitleLayout, titleMaxMeasureLength, getTextProperties, vertTitleInit,
                    vertWidthUpdate_push, updateLayout, calculateViewport, layoutSetupState,
                    layoutWindow, changeOrientation, getOrientation,
                    calculateVerticalNavigationArrowsLayout, updateNav_fst, updateNav_snd,
                    mkVertCtx_scrub, ite_absorb, hT, hts,
                    Option.map, isTopOrBottom, reduceIte, reduceCtorEq, if_neg hne,
                    normalizeIdx_idem] at h
                  obtain rfl : r = _ := (Option.some.inj h).symm
                  simp only [drawLegendInternal, calculateLayout, calculateVerticalLayout,
                    calculateTitleLayout, titleMaxMeasureLength, getTextProperties, vertTitleInit,
                    vertWidthUpdate_push, updateLayout, calculateViewport, layoutSetupState,
                    layoutWindow, changeOrientation, getOrientation,
                    calculateVerticalNavigationArrowsLayout, updateNav_fst, updateNav_snd,
                    mkVertCtx_scrub, ite_absorb, hT, hts,
                    Option.map, isTopOrBottom, reduceIte, reduceCtorEq, if_neg hne,
                    normalizeIdx_idem]))

set_option maxHeartbeats 1600000 in
lemma drawInternal_idem_none (tm : TextMeasure)
    (vw pvw : Viewport) (idx : ℤ) (apw : ℕ)
    (dat : LegendData) (isc shp : Bool) (lcw vlw vlh mdf mvl sw sh : ℚ)
    (D : LegendData) (vp : Viewport)
    (r : LegendState × LegendLayout × List LegendDataPoint)
    (hne : ¬(D.dataPoints = []))
    (h : drawLegendInternal tm ⟨.None, vw, pvw, idx, apw, dat, isc, shp, lcw, vlw, vlh, mdf, mvl, sw, sh⟩ D vp true = some r) :
    drawLegendInternal tm r.1 D vp true = some r := by
  simp only [drawLegendInternal, calculateLayout, updateLayout, calculateViewport,
    changeOrientation, getOrientation, isTopOrBottom,
    reduceIte, reduceCtorEq, if_neg hne] at h
  obtain rfl : r = _ := (Option.some.inj h).symm
  simp only [drawLegendInternal, calculateLayout, updateLayout, calculateViewport,
    changeOrientation, getOrientation, isTopOrBottom,
    reduceIte, reduceCtorEq, if_neg hne]

set_option maxHeartbeats 1600000 in
lemma drawInternal_idem_empty (tm : TextMeasure) (o : LegendPosition)
    (vw pvw : Viewport) (idx : ℤ) (apw : ℕ)
    (dat : LegendData) (isc shp : Bool) (lcw vlw vlh mdf mvl sw sh : ℚ)
    (D : LegendData) (vp : Viewport)
    (r : LegendState × LegendLayout × List LegendDataPoint)
    (hemp : D.dataPoints = [])
    (h : drawLegendInternal tm ⟨o, vw, pvw, idx, apw, dat, isc, shp, lcw, vlw, vlh, mdf, mvl, sw, sh⟩ D vp true = some r) :
    drawLegendInternal tm r.1 D vp true = some r := by
  simp only [drawLegendInternal, calculateLayout, updateLayout, calculateViewport,
    changeOrientation_none, getOrientation, isTopOrBottom, hemp,
    reduceIte, reduceCtorEq, if_pos hemp] at h
  obtain rfl : r = _ := (Option.some.inj h).symm
  simp only [drawLegendInternal, calculateLayout, updateLayout, calculateViewport,
    changeOrientation_none, getOrientation, isTopOrBottom, hemp,
    reduceIte, reduceCtorEq, if_pos hemp]

lemma drawLegendInternal_idem (tm : TextMeasure) (s : LegendState) (D : LegendData)
    (vp : Viewport) (r : LegendState × LegendLayout × List LegendDataPoint)
    (h : drawLegendInternal tm s D vp true = some r) :
    drawLegendInternal tm r.1 D vp true = some r := by
  obtain ⟨o, vw, pvw, idx, apw, dat, isc, shp, lcw, vlw, vlh, mdf, mvl, sw, sh⟩ := s
  by_cases hne : D.dataPoints = []
  · exact drawInternal_idem_empty tm o vw pvw idx apw dat isc shp lcw vlw vlh mdf mvl sw sh D vp r hne h
  · by_cases hN : o = .None
    · subst hN
      exact drawInternal_idem_none tm vw pvw idx apw dat isc shp lcw vlw vlh mdf mvl sw sh D vp r hne h
    · by_cases hTB : isTopOrBottom o = true
      · exact drawInternal_idem_horiz tm o vw pvw idx apw dat isc shp lcw vlw vlh mdf mvl sw sh D vp r hTB hne h
      · exact drawInternal_idem_vert tm o vw pvw idx apw dat isc shp lcw vlw vlh mdf mvl sw sh D vp r hTB hN hne h

/-- C7: the layout computation is idempotent: if `drawLegend` over data
`data` in parent viewport `vp` yields the result `r` (the updated widget
state, the layout — item count, title box, navigation arrows — and the
annotated data points), then running `drawLegend` again from the
resulting state with the same data and viewport yields exactly the same
result `r`: identical geometry and no state change beyond the first
call's, for every orientation, title, pagination state and collaborator
— in particular the vertical pass's `lastCalculatedWidth` update and the
title re-tailoring against the rendered svg width do not perturb a
repeated run. -/
theorem computeLayout_idempotent (tm : TextMeasure) (s : LegendState)
    (data : LegendData) (vp : Viewport)
    (r : LegendState × LegendLayout × List LegendDataPoint)
    (h : drawLegend tm s data vp = some r) :
    drawLegend tm r.1 data vp = some r := by
  simp only [drawLegend] at h ⊢
  exact drawLegendInternal_idem tm _ _ _ _ h

/-- Concrete instantiation of C7: re-drawing `cexData` from the drawn
state reproduces the first result exactly. -/
theorem computeLayout_idempotent_witness :
    drawLegend simpleTM state0 cexData ⟨500, 24⟩ = some c7Draw ∧
    drawLegend simpleTM c7Draw.1 cexData ⟨500, 24⟩ = some c7Draw := by
  have h1 : drawLegend simpleTM state0 cexData ⟨500, 24⟩ = some c7Draw := by
    with_unfolding_all rfl
  exact ⟨h1, computeLayout_idempotent simpleTM state0 cexData ⟨500, 24⟩ c7Draw h1⟩


/-! ## C8 — no mutation of the caller's data -/

/-- C8: `drawLegend` never mutates the caller's `LegendData` or its data
points.  In the heap model `drawLegendHeap`, the caller's cells form the
prefix of the store and the defensive clones are fresh appended cells,
so after the call the caller-visible portion of both stores — the data
object and every one of its data points, with their labels, measures and
positions — is exactly what it was before. -/
theorem drawLegend_no_mutation (tm : TextMeasure) (s : LegendState)
    (dataCells : List LegendData) (pointCells : List LegendDataPoint)
    (data : LegendData) (vp : Viewport) :
    (drawLegendHeap tm s dataCells pointCells data vp).1.take dataCells.length =
      dataCells ∧
    (drawLegendHeap tm s dataCells pointCells data vp).2.1.take pointCells.length =
      pointCells := by
  constructor <;> simp [drawLegendHeap, List.take_left]
